import Mathlib

/-!
# Checkout pricing and payment confirmation

A shallow embedding of `frontend/src/pages/CheckoutPage.js` (component `CheckoutForm`),
of the handlers, quantity controls and order summary of `frontend/src/pages/CartPage.js`,
and of the quantity selector and `handleAddToCart` of
`frontend/src/pages/ProductDetailPage.js`.

Modelling conventions

* JavaScript numbers are carried by rationals `ℚ`. The pricing functions come in two
  readings. In the exact one every arithmetic operation of the source (`+`, `-`, `*`, `/`,
  `Math.min`, `>=`) is the exact one and the literal `0.1` is the rational one tenth; it
  serves the properties that are about which quantities are combined and compared. In the
  double-precision one (`Binary64`) every operation rounds to the nearest IEEE 754
  binary64 value; it serves the properties that are about the exact value computed.
* A value that may be `null`/`undefined` in the source is an `Option`.
* React state (`useState`) is a record; a handler is a function from the state it closes
  over to the state after it has run, together with the ordered list of the effects it
  issued (HTTP requests, processor calls, toasts, navigation, `setLoading`).
* The answers of the backend and of the payment processor are parameters of the handler:
  a rejected promise is `Except.error`, a resolved one `Except.ok`.
* Properties of "every reachable state" are stated on a transition system of the checkout
  page (`pageStep`), in which `handleSubmit` is suspended at each of its awaited calls;
  `attempt_eq_handleSubmit` relates it to the handler taken as one function.
-/

namespace Checkout

/-! ## Data model -/

/-- One element of `cart.items` as returned by `GET /cart`. -/
structure CartItem where
  variant_id : String
  price : ℚ
  quantity : ℚ
  deriving DecidableEq

/-- The `data` of `GET /cart`; `items` may be missing. -/
structure Cart where
  items : Option (List CartItem)
  deriving DecidableEq

/-- The `shippingAddress` state of `CheckoutForm`. -/
structure ShippingAddress where
  full_name : String
  address_line1 : String
  address_line2 : String
  city : String
  state : String
  postal_code : String
  country : String
  phone : String
  deriving DecidableEq

/-- The `data` of `GET /coupons/validate/{code}`: a coupon. `min_order_value` is the
coupon field of that name (AdminCoupons.js 47), absent when the answer does not carry it. -/
structure CouponData where
  type : String
  value : ℚ
  max_discount : Option ℚ
  min_order_value : Option ℚ := none
  deriving DecidableEq

/-- The body of `POST /checkout`. -/
structure CheckoutBody where
  shipping_address : ShippingAddress
  billing_address : ShippingAddress
  coupon_code : Option String
  deriving DecidableEq

/-- The `data` of a successful `POST /checkout`. -/
structure CheckoutData where
  order_id : String
  client_secret : String
  deriving DecidableEq

/-- The `address` of the billing details handed to the processor. -/
structure BillingAddress where
  line1 : String
  city : String
  state : String
  postal_code : String
  country : String
  deriving DecidableEq

/-- The `billing_details` handed to the processor. -/
structure BillingDetails where
  name : String
  address : BillingAddress
  deriving DecidableEq

/-- The `error` member of the processor's answer. -/
structure StripeError where
  message : String
  deriving DecidableEq

/-- The `paymentIntent` member of the processor's answer. -/
structure PaymentIntent where
  status : String
  deriving DecidableEq

/-- The value `stripe.confirmCardPayment` resolves with. -/
structure PaymentResult where
  error : Option StripeError
  paymentIntent : Option PaymentIntent
  deriving DecidableEq

/-- A value caught by a `catch` clause: `responseDetail` is `error.response?.data?.detail`,
`none` when any link of the chain is missing (as for a thrown `TypeError`). -/
structure JsError where
  message : String
  responseDetail : Option String
  deriving DecidableEq

/-- The observable effects of the handlers, in the order they are issued. -/
inductive Effect where
  | preventDefault
  | setLoading (b : Bool)
  | getCart
  | getCouponValidate (code : String)
  | postCheckout (body : CheckoutBody)
  | confirmCardPayment (clientSecret : String) (billing : BillingDetails)
  | postOrderConfirm (url : String)
  | toastError (msg : String)
  | toastSuccess (msg : String)
  | toastInfo (msg : String)
  | navigate (path : String)
  deriving DecidableEq

/-- The state of `CheckoutForm`: the `useState` cells and the two processor hooks
(`stripe`, `elements`: whether `useStripe()` / `useElements()` are non-null). -/
structure CheckoutState where
  stripe : Bool
  elements : Bool
  loading : Bool
  cart : Option Cart
  couponCode : String
  shippingAddress : ShippingAddress
  discount : ℚ
  deriving DecidableEq

/-- The parties `handleSubmit` talks to. -/
structure CheckoutEnv where
  postCheckout : CheckoutBody → Except JsError CheckoutData
  confirmCardPayment : String → BillingDetails → Except JsError PaymentResult
  postOrderConfirm : String → Except JsError Unit

/-! ## Pricing -/

/-- `calculateSubtotal` (CheckoutPage.js 51-54, CartPage.js 52-55):
`if (!cart?.items) return 0; return cart.items.reduce((sum, item) => sum + item.price * item.quantity, 0)`.
This is the exact-arithmetic reading; `Binary64.calculateSubtotal` rounds every operation
to a double. -/
def calculateSubtotal (cart : Option Cart) : ℚ :=
  match cart with
  | none => 0
  | some c =>
    match c.items with
    | none => 0
    | some items => items.foldl (fun sum item => sum + item.price * item.quantity) 0

/-- A cart is non-negative when every line has a non-negative price and quantity. -/
def Cart.NonNeg (cart : Option Cart) : Prop :=
  ∀ c, cart = some c → ∀ items, c.items = some items →
    ∀ item ∈ items, 0 ≤ item.price ∧ 0 ≤ item.quantity

/-- `const subtotal = calculateSubtotal();` (CheckoutPage.js 137). -/
def subtotal (s : CheckoutState) : ℚ := calculateSubtotal s.cart

/-- `const shipping = subtotal >= 100 ? 0 : 10;` (CheckoutPage.js 138). -/
def shipping (s : CheckoutState) : ℚ := if subtotal s ≥ 100 then 0 else 10

/-- `const tax = (subtotal - discount) * 0.1;` (CheckoutPage.js 139), in exact arithmetic;
`Binary64.tax` rounds every operation to a double. -/
def tax (s : CheckoutState) : ℚ := (subtotal s - s.discount) * 0.1

/-- `const total = subtotal - discount + shipping + tax;` (CheckoutPage.js 140). -/
def total (s : CheckoutState) : ℚ := subtotal s - s.discount + shipping s + tax s

/-! ## Coupons -/

/-- The JavaScript `a || b` on an optional string: `b` when `a` is missing or empty. -/
def orElse (a : Option String) (b : String) : String :=
  match a with
  | none => b
  | some x => if x = "" then b else x

/-- `applyCoupon` (CheckoutPage.js 111-135); `validate` is `GET /coupons/validate/{code}`.
The guard `if (data.max_discount)` is the JavaScript truthiness test: it fails for a
missing cap and for a cap of 0. Any `type` other than 'percentage' takes the `else` branch. -/
def applyCoupon (validate : String → Except JsError CouponData) (s : CheckoutState) :
    CheckoutState × List Effect :=
  if s.couponCode = "" then
    ({ s with discount := 0 }, [Effect.toastInfo "Coupon code cleared"])
  else
    match validate s.couponCode with
    | Except.ok data =>
      let currentSubtotal := calculateSubtotal s.cart
      let calculatedDiscount : ℚ :=
        if data.type = "percentage" then
          let percentDiscount := currentSubtotal * (data.value / 100)
          match data.max_discount with
          | some cap => if cap ≠ 0 then min percentDiscount cap else percentDiscount
          | none => percentDiscount
        else
          data.value
      ({ s with discount := calculatedDiscount },
        [Effect.getCouponValidate s.couponCode,
         Effect.toastSuccess ("Coupon \"" ++ s.couponCode ++ "\" applied!")])
    | Except.error error =>
      ({ s with discount := 0 },
        [Effect.getCouponValidate s.couponCode,
         Effect.toastError (orElse error.responseDetail "Invalid coupon code")])

/-! ## The checkout transaction -/

/-- The body sent by `handleSubmit` (CheckoutPage.js 67-71): the shipping address is used
for both addresses, `couponCode || undefined` drops an empty code. -/
def checkoutBody (s : CheckoutState) : CheckoutBody :=
  { shipping_address := s.shippingAddress
    billing_address := s.shippingAddress
    coupon_code := if s.couponCode = "" then none else some s.couponCode }

/-- The `billing_details` built by `handleSubmit` (CheckoutPage.js 77-85). -/
def billingDetails (s : CheckoutState) : BillingDetails :=
  { name := s.shippingAddress.full_name
    address :=
      { line1 := s.shippingAddress.address_line1
        city := s.shippingAddress.city
        state := s.shippingAddress.state
        postal_code := s.shippingAddress.postal_code
        country := s.shippingAddress.country } }

/-- The `catch`/`finally` clauses of `handleSubmit` (CheckoutPage.js 102-106), entered
after the effects `issued`. -/
def handleSubmitCatch (s : CheckoutState) (error : JsError) (issued : List Effect) :
    CheckoutState × List Effect :=
  ({ s with loading := false },
    issued ++ [Effect.toastError (orElse error.responseDetail "Checkout failed"),
               Effect.setLoading false])

/-- The `TypeError` thrown by `paymentIntent.status` when `paymentIntent` is undefined. -/
def statusTypeError : JsError :=
  { message := "Cannot read properties of undefined (reading 'status')"
    responseDetail := none }

/-- `handleSubmit` (CheckoutPage.js 56-107). The three awaited calls share one `try`: a
rejection of any of them, and the `TypeError` of reading `status` off a missing
`paymentIntent`, enter the same `catch`; the `finally` clause runs on every path after
`setLoading(true)`, also after the early `return` of the processor-error branch. -/
def handleSubmit (env : CheckoutEnv) (s : CheckoutState) : CheckoutState × List Effect :=
  if !s.stripe || !s.elements then
    (s, [Effect.preventDefault])
  else
    let t0 := [Effect.preventDefault, Effect.setLoading true, Effect.postCheckout (checkoutBody s)]
    match env.postCheckout (checkoutBody s) with
    | Except.error error => handleSubmitCatch s error t0
    | Except.ok data =>
      let t1 := t0 ++ [Effect.confirmCardPayment data.client_secret (billingDetails s)]
      match env.confirmCardPayment data.client_secret (billingDetails s) with
      | Except.error error => handleSubmitCatch s error t1
      | Except.ok result =>
        match result.error with
        | some error =>
          ({ s with loading := false },
            t1 ++ [Effect.toastError error.message, Effect.setLoading false,
                   Effect.setLoading false])
        | none =>
          match result.paymentIntent with
          | none => handleSubmitCatch s statusTypeError t1
          | some paymentIntent =>
            if paymentIntent.status = "succeeded" then
              let url := "/orders/" ++ data.order_id ++ "/confirm"
              let t2 := t1 ++ [Effect.postOrderConfirm url]
              match env.postOrderConfirm url with
              | Except.error error => handleSubmitCatch s error t2
              | Except.ok _ =>
                ({ s with loading := false },
                  t2 ++ [Effect.toastSuccess "Order placed successfully!",
                         Effect.navigate "/orders", Effect.setLoading false])
            else
              ({ s with loading := false }, t1 ++ [Effect.setLoading false])

/-- Whether an effect is visible to the user: a toast or a navigation. -/
def Effect.isUserVisible : Effect → Bool
  | Effect.toastError _ => true
  | Effect.toastSuccess _ => true
  | Effect.toastInfo _ => true
  | Effect.navigate _ => true
  | _ => false

/-- Whether an effect is an order-confirm request. -/
def Effect.isOrderConfirm : Effect → Bool
  | Effect.postOrderConfirm _ => true
  | _ => false

/-! ## Concrete carts, states and parties used in the examples -/

/-- A filled-in shipping address. -/
def sampleAddress : ShippingAddress :=
  { full_name := "Ada Byron", address_line1 := "1 Main St", address_line2 := "",
    city := "Springfield", state := "IL", postal_code := "62701", country := "US",
    phone := "5550100" }

/-- A cart with a single line of the given unit price and quantity. -/
def singleLineCart (price quantity : ℚ) : Cart :=
  { items := some [{ variant_id := "v1", price := price, quantity := quantity }] }

/-- A checkout page with processor hooks ready, the given cart and coupon code, no discount. -/
def readyState (cart : Option Cart) (couponCode : String) : CheckoutState :=
  { stripe := true, elements := true, loading := false, cart := cart,
    couponCode := couponCode, shippingAddress := sampleAddress, discount := 0 }

/-- A validation endpoint that answers every code with the same coupon. -/
def validateAs (data : CouponData) : String → Except JsError CouponData :=
  fun _ => Except.ok data

/-- A backend failure carrying the given `detail`. -/
def backendError (detail : Option String) : JsError :=
  { message := "Request failed with status code 400", responseDetail := detail }

/-- The order created in the examples. -/
def sampleOrder : CheckoutData := { order_id := "42", client_secret := "cs_42" }

/-- Parties where `POST /checkout` is rejected with `error`. -/
def envCheckoutFails (error : JsError) : CheckoutEnv :=
  { postCheckout := fun _ => Except.error error
    confirmCardPayment := fun _ _ =>
      Except.ok { error := none, paymentIntent := some { status := "succeeded" } }
    postOrderConfirm := fun _ => Except.ok () }

/-- Parties where the order is created, the processor answers with the given status and
no error, and the order-confirm call answers `confirm`. -/
def envPayment (status : String) (confirm : Except JsError Unit) : CheckoutEnv :=
  { postCheckout := fun _ => Except.ok sampleOrder
    confirmCardPayment := fun _ _ =>
      Except.ok { error := none, paymentIntent := some { status := status } }
    postOrderConfirm := fun _ => confirm }

/-! ## Loading the cart on the checkout page -/

/-- `fetchCart` of `CheckoutForm` (CheckoutPage.js 37-49); `response` is the answer of
`GET /cart`. `!data.items || data.items.length === 0` holds for a missing and for an
empty list. -/
def fetchCart (response : Except JsError Cart) (s : CheckoutState) :
    CheckoutState × List Effect :=
  match response with
  | Except.ok data =>
    match data.items with
    | none =>
      (s, [Effect.getCart, Effect.toastError "Your cart is empty", Effect.navigate "/cart"])
    | some items =>
      if items.length = 0 then
        (s, [Effect.getCart, Effect.toastError "Your cart is empty", Effect.navigate "/cart"])
      else
        ({ s with cart := some data }, [Effect.getCart])
  | Except.error _ =>
    (s, [Effect.getCart, Effect.toastError "Failed to load cart"])

/-- The held cart is unset or has at least one item. -/
def CartLoadedOrUnset (cart : Option Cart) : Prop :=
  cart = none ∨ ∃ c items, cart = some c ∧ c.items = some items ∧ items ≠ []

/-! ## The checkout page as a transition system

The handler `handleSubmit` suspends at its three awaited calls. Between two suspension
points it runs to completion; a suspended run is a `Pending` continuation together with
the state its closure captured when the form was submitted. All state updates of a
handler are applied before the next event is taken. `applyCoupon` suspends at its
validation request in the same way: what runs when the request settles reads the cart
and the coupon code its closure captured when Apply was clicked, and writes the discount
cell of the page. `fetchCart` reads nothing of the page and is taken as one step at the
moment `GET /cart` settles. -/

/-- A suspended run of `handleSubmit`: awaiting `POST /checkout`, `confirmCardPayment`, or
the order-confirm call. -/
inductive Pending where
  | checkout (closure : CheckoutState)
  | payment (closure : CheckoutState) (data : CheckoutData)
  | confirm (closure : CheckoutState) (data : CheckoutData)
  deriving DecidableEq

/-- The checkout page: the state cells, the suspended runs of `handleSubmit`, and the
suspended runs of `applyCoupon`, each the state its closure captured at the click. -/
structure Page where
  state : CheckoutState
  inflight : List Pending
  validations : List CheckoutState := []

/-- What can happen to the checkout page. -/
inductive PageEvent where
  | hooks (stripe elements : Bool)
  | fetchCartSettled (response : Except JsError Cart)
  | setCouponCode (code : String)
  | setShippingAddress (address : ShippingAddress)
  | applyCouponClicked
  | couponSettled (i : Nat) (response : Except JsError CouponData)
  | placeOrder
  | checkoutSettled (i : Nat) (response : Except JsError CheckoutData)
  | paymentSettled (i : Nat) (response : Except JsError PaymentResult)
  | confirmSettled (i : Nat) (response : Except JsError Unit)

/-- The `disabled` attribute of the place-order button, the submit button of the form
(CheckoutPage.js 323): `disabled={!stripe || loading}`. -/
def placeOrderDisabled (s : CheckoutState) : Bool := !s.stripe || s.loading

/-- The constraint validation of the form: the inputs marked `required`
(CheckoutPage.js 157-221) are all filled in. `address_line2` is not required and `country`
has no input. While one of them is empty the browser does not fire the submit event. -/
def requiredFieldsFilled (a : ShippingAddress) : Bool :=
  a.full_name ≠ "" && a.address_line1 ≠ "" && a.city ≠ "" && a.state ≠ ""
    && a.postal_code ≠ "" && a.phone ≠ ""

/-- `handleSubmit` up to its first `await` (CheckoutPage.js 56-71). -/
def submitStart (p : Page) : Page × List Effect :=
  if !p.state.stripe || !p.state.elements then
    (p, [Effect.preventDefault])
  else
    ({ state := { p.state with loading := true }
       inflight := p.inflight ++ [Pending.checkout p.state] },
      [Effect.preventDefault, Effect.setLoading true,
       Effect.postCheckout (checkoutBody p.state)])

/-- The end of a run of `handleSubmit`: the run `i` is over, `setLoading(false)` has been
applied. -/
def finishAttempt (p : Page) (i : Nat) (effects : List Effect) : Page × List Effect :=
  ({ state := { p.state with loading := false }, inflight := p.inflight.eraseIdx i }, effects)

/-- The `catch`/`finally` clauses of `handleSubmit` (CheckoutPage.js 102-106) for run `i`. -/
def catchAttempt (p : Page) (i : Nat) (error : JsError) : Page × List Effect :=
  finishAttempt p i
    [Effect.toastError (orElse error.responseDetail "Checkout failed"), Effect.setLoading false]

/-- `POST /checkout` of run `i` settles (CheckoutPage.js 67-88). -/
def settleCheckout (p : Page) (i : Nat) (response : Except JsError CheckoutData) :
    Page × List Effect :=
  match p.inflight.get? i with
  | some (Pending.checkout closure) =>
    match response with
    | Except.error error => catchAttempt p i error
    | Except.ok data =>
      ({ p with inflight := p.inflight.set i (Pending.payment closure data) },
        [Effect.confirmCardPayment data.client_secret (billingDetails closure)])
  | _ => (p, [])

/-- `confirmCardPayment` of run `i` settles (CheckoutPage.js 74-101). -/
def settlePayment (p : Page) (i : Nat) (response : Except JsError PaymentResult) :
    Page × List Effect :=
  match p.inflight.get? i with
  | some (Pending.payment closure data) =>
    match response with
    | Except.error error => catchAttempt p i error
    | Except.ok result =>
      match result.error with
      | some error =>
        finishAttempt p i
          [Effect.toastError error.message, Effect.setLoading false, Effect.setLoading false]
      | none =>
        match result.paymentIntent with
        | none => catchAttempt p i statusTypeError
        | some paymentIntent =>
          if paymentIntent.status = "succeeded" then
            ({ p with inflight := p.inflight.set i (Pending.confirm closure data) },
              [Effect.postOrderConfirm ("/orders/" ++ data.order_id ++ "/confirm")])
          else
            finishAttempt p i [Effect.setLoading false]
  | _ => (p, [])

/-- The order-confirm call of run `i` settles (CheckoutPage.js 98-106). -/
def settleConfirm (p : Page) (i : Nat) (response : Except JsError Unit) :
    Page × List Effect :=
  match p.inflight.get? i with
  | some (Pending.confirm _ _) =>
    match response with
    | Except.error error => catchAttempt p i error
    | Except.ok _ =>
      finishAttempt p i
        [Effect.toastSuccess "Order placed successfully!", Effect.navigate "/orders",
         Effect.setLoading false]
  | _ => (p, [])

/-- A click on Apply (CheckoutPage.js 111-118): `applyCoupon` up to its `await`. With an
empty code it clears the discount at once; otherwise it issues the validation request and
suspends, keeping the state of the render in which the click happened. -/
def applyCouponStart (p : Page) : Page × List Effect :=
  if p.state.couponCode = "" then
    ({ p with state := { p.state with discount := 0 } },
      [Effect.toastInfo "Coupon code cleared"])
  else
    ({ p with validations := p.validations ++ [p.state] },
      [Effect.getCouponValidate p.state.couponCode])

/-- The validation request of the suspended `applyCoupon` number `i` settles
(CheckoutPage.js 119-134): the discount is computed by `applyCoupon` from the cart of the
closure and stored in the page; the toast names the coupon code of the closure. The
request itself was issued at the click, so the effects are those after it. -/
def settleCoupon (p : Page) (i : Nat) (response : Except JsError CouponData) :
    Page × List Effect :=
  match p.validations.get? i with
  | some closure =>
    ({ p with
        state := { p.state with discount := (applyCoupon (fun _ => response) closure).1.discount }
        validations := p.validations.eraseIdx i },
      (applyCoupon (fun _ => response) closure).2.tail)
  | none => (p, [])

/-- One step of the checkout page. The form is submitted through its submit button, so
`placeOrder` does nothing while the button is disabled or a required field is empty. -/
def pageStep (p : Page) : PageEvent → Page × List Effect
  | PageEvent.hooks stripe elements =>
    ({ p with state := { p.state with stripe := stripe, elements := elements } }, [])
  | PageEvent.fetchCartSettled response =>
    ({ p with state := (fetchCart response p.state).1 }, (fetchCart response p.state).2)
  | PageEvent.setCouponCode code =>
    ({ p with state := { p.state with couponCode := code } }, [])
  | PageEvent.setShippingAddress address =>
    ({ p with state := { p.state with shippingAddress := address } }, [])
  | PageEvent.applyCouponClicked => applyCouponStart p
  | PageEvent.couponSettled i response => settleCoupon p i response
  | PageEvent.placeOrder =>
    if placeOrderDisabled p.state || !requiredFieldsFilled p.state.shippingAddress then (p, [])
    else submitStart p
  | PageEvent.checkoutSettled i response => settleCheckout p i response
  | PageEvent.paymentSettled i response => settlePayment p i response
  | PageEvent.confirmSettled i response => settleConfirm p i response

/-- The state of `CheckoutForm` when it mounts (CheckoutPage.js 19-31, 109). -/
def initialState : CheckoutState :=
  { stripe := false, elements := false, loading := false, cart := none, couponCode := "",
    shippingAddress :=
      { full_name := "", address_line1 := "", address_line2 := "", city := "", state := "",
        postal_code := "", country := "US", phone := "" },
    discount := 0 }

/-- The checkout page when it mounts. -/
def initialPage : Page := { state := initialState, inflight := [] }

/-- The page after the given events, from a given page. -/
def runFrom (p : Page) (events : List PageEvent) : Page :=
  events.foldl (fun q e => (pageStep q e).1) p

/-- The page after the given events, from the mount. -/
def run (events : List PageEvent) : Page := runFrom initialPage events

/-- A page is reachable when some sequence of events leads to it from the mount. -/
def Reachable (p : Page) : Prop := ∃ events, run events = p

/-- While a run of `handleSubmit` is suspended `loading` is set, and no two runs are
suspended together. -/
def SingleAttempt (p : Page) : Prop :=
  p.inflight = [] ∨ (p.state.loading = true ∧ ∃ x, p.inflight = [x])

/-- Whether an effect is a `POST /checkout` request. -/
def Effect.isPostCheckout : Effect → Bool
  | Effect.postCheckout _ => true
  | _ => false

/-- The run of `handleSubmit` that is suspended first settles with the answer of `env`. -/
def settleWith (env : CheckoutEnv) (p : Page) : Page × List Effect :=
  match p.inflight.head? with
  | some (Pending.checkout closure) =>
    settleCheckout p 0 (env.postCheckout (checkoutBody closure))
  | some (Pending.payment closure data) =>
    settlePayment p 0 (env.confirmCardPayment data.client_secret (billingDetails closure))
  | some (Pending.confirm _ data) =>
    settleConfirm p 0 (env.postOrderConfirm ("/orders/" ++ data.order_id ++ "/confirm"))
  | none => (p, [])

/-- A whole run of `handleSubmit` against `env` with no other event in between: the start
and the three settlements. -/
def attempt (env : CheckoutEnv) (s : CheckoutState) : Page × List Effect :=
  let r0 := submitStart { state := s, inflight := [] }
  let r1 := settleWith env r0.1
  let r2 := settleWith env r1.1
  let r3 := settleWith env r2.1
  (r3.1, r0.2 ++ r1.2 ++ r2.2 ++ r3.2)

/-! ## The cart page -/

namespace CartPage

/-- The state of `CartPage` (CartPage.js 11-12). -/
structure CartState where
  cart : Option Cart
  loading : Bool
  deriving DecidableEq

/-- The observable effects of the cart page handlers, in the order they are issued. -/
inductive CartEffect where
  | getCart
  | putCartItem (variantId : String) (quantity : ℚ)
  | deleteCartItem (variantId : String)
  | setLoading (b : Bool)
  | onUpdate
  | consoleError (msg : String)
  | toastError (msg : String)
  | toastSuccess (msg : String)
  deriving DecidableEq

/-- The backend as the cart page sees it: the answers of `PUT /cart/items/{id}?quantity=N`,
of `DELETE /cart/items/{id}` and of the `GET /cart` that follows. -/
structure CartEnv where
  putCartItem : String → ℚ → Except JsError Unit
  deleteCartItem : String → Except JsError Unit
  getCart : Except JsError Cart

/-- `fetchCart` of `CartPage` (CartPage.js 18-28): it stores the answer as it is, keeps the
held cart when the request fails, and never rethrows. -/
def fetchCart (env : CartEnv) (s : CartState) : CartState × List CartEffect :=
  match env.getCart with
  | Except.ok data =>
    ({ cart := some data, loading := false }, [CartEffect.getCart, CartEffect.setLoading false])
  | Except.error _ =>
    ({ s with loading := false },
      [CartEffect.getCart, CartEffect.consoleError "Error fetching cart:",
       CartEffect.toastError "Failed to load cart", CartEffect.setLoading false])

/-- `updateQuantity` (CartPage.js 30-39). -/
def updateQuantity (env : CartEnv) (variantId : String) (quantity : ℚ) (s : CartState) :
    CartState × List CartEffect :=
  match env.putCartItem variantId quantity with
  | Except.ok _ =>
    ((fetchCart env s).1,
      [CartEffect.putCartItem variantId quantity] ++ (fetchCart env s).2
        ++ [CartEffect.onUpdate, CartEffect.toastSuccess "Cart updated"])
  | Except.error _ =>
    (s, [CartEffect.putCartItem variantId quantity,
         CartEffect.toastError "Failed to update cart"])

/-- `removeItem` (CartPage.js 41-50). -/
def removeItem (env : CartEnv) (variantId : String) (s : CartState) :
    CartState × List CartEffect :=
  match env.deleteCartItem variantId with
  | Except.ok _ =>
    ((fetchCart env s).1,
      [CartEffect.deleteCartItem variantId] ++ (fetchCart env s).2
        ++ [CartEffect.onUpdate, CartEffect.toastSuccess "Item removed"])
  | Except.error _ =>
    (s, [CartEffect.deleteCartItem variantId, CartEffect.toastError "Failed to remove item"])

/-- A cart page showing a cart of one line, 2 × 30. -/
def shownState : CartState := { cart := some (singleLineCart 30 2), loading := false }

/-- A backend that rejects the quantity update and the removal. -/
def envMutationFails : CartEnv :=
  { putCartItem := fun _ _ => Except.error (backendError (some "Insufficient inventory"))
    deleteCartItem := fun _ => Except.error (backendError none)
    getCart := Except.ok (singleLineCart 30 2) }

/-- A backend that accepts the mutation and then fails to answer `GET /cart`. -/
def envRefetchFails : CartEnv :=
  { putCartItem := fun _ _ => Except.ok ()
    deleteCartItem := fun _ => Except.ok ()
    getCart := Except.error (backendError none) }

/-- A backend that accepts the mutation and answers `GET /cart` with the given cart. -/
def envAccepts (cart : Cart) : CartEnv :=
  { putCartItem := fun _ _ => Except.ok ()
    deleteCartItem := fun _ => Except.ok ()
    getCart := Except.ok cart }

end CartPage

/-! ## The cart page: quantity controls and order summary -/

namespace CartPage

/-- The `disabled` attribute of the decrement button of a cart line (CartPage.js 123):
`disabled={item.quantity <= 1}`. -/
def decreaseDisabled (item : CartItem) : Bool := decide (item.quantity ≤ 1)

/-- A click on the decrement button of a cart line (CartPage.js 119-127): nothing while the
button is disabled, else `updateQuantity(item.variant_id, item.quantity - 1)`. -/
def clickDecrease (env : CartEnv) (item : CartItem) (s : CartState) :
    CartState × List CartEffect :=
  if decreaseDisabled item then (s, [])
  else updateQuantity env item.variant_id (item.quantity - 1) s

/-- A click on the increment button of a cart line (CartPage.js 131-138):
`updateQuantity(item.variant_id, item.quantity + 1)`. -/
def clickIncrease (env : CartEnv) (item : CartItem) (s : CartState) :
    CartState × List CartEffect :=
  updateQuantity env item.variant_id (item.quantity + 1) s

/-- `const subtotal = calculateSubtotal();` (CartPage.js 65). -/
def subtotalShown (s : CartState) : ℚ := calculateSubtotal s.cart

/-- The shipping of the order summary (CartPage.js 163, 174): `subtotal >= 100 ? 0 : 10`. -/
def shippingShown (s : CartState) : ℚ := if subtotalShown s ≥ 100 then 0 else 10

/-- The tax of the order summary (CartPage.js 168): `subtotal * 0.1`. -/
def taxShown (s : CartState) : ℚ := subtotalShown s * 0.1

/-- The total of the order summary (CartPage.js 174):
`subtotal + (subtotal >= 100 ? 0 : 10) + subtotal * 0.1`. -/
def totalShown (s : CartState) : ℚ :=
  subtotalShown s + (if subtotalShown s ≥ 100 then 0 else 10) + subtotalShown s * 0.1

/-- Modelled from the spec: the backend's `DELETE /cart/items/{variantId}`, which is not
among the sources. "`removeItem(variantId)`: idempotent — removing an absent item is not an
error"; "Removing a cart item not present is a no-op (no error, unchanged cart)". The
stored cart is a list of lines; the answer is an acknowledgement and the store without
the lines of that variant. -/
def backendDelete (store : List CartItem) (variantId : String) :
    Except JsError Unit × List CartItem :=
  (Except.ok (), store.filter (fun item => item.variant_id ≠ variantId))

/-- Modelled from the spec: the backend's `GET /cart`, which answers with the stored lines:
"`GET /cart` → `{ items: [{variant_id, quantity, price, product, variant}] }`". -/
def backendGetCart (store : List CartItem) : Except JsError Cart :=
  Except.ok { items := some store }

/-- The backend holding `store`, as `removeItem variantId` sees it: the answer of the
`DELETE` and of the `GET /cart` that follows it. -/
def envOfStore (store : List CartItem) (variantId : String) : CartEnv :=
  { putCartItem := fun _ _ => Except.ok ()
    deleteCartItem := fun v => (backendDelete store v).1
    getCart := backendGetCart (backendDelete store variantId).2 }

end CartPage

/-! ## Rounding -/

/-- The spec's `round(x, 2)`: the nearest multiple of one hundredth. -/
def roundCents (x : ℚ) : ℚ := (round (x * 100) : ℤ) / 100

/-! ## Pricing in double precision

JavaScript numbers are IEEE 754 binary64 values and every `*`, `+` and `-` of the source
rounds its exact result to the nearest one, ties to the even mantissa. A double is carried
by the rational it denotes; `roundDouble` is the rounding, with 53 bits of mantissa and
gradual underflow below `2 ^ (-1022)`. Magnitudes from `2 ^ 1024` on, where JavaScript
yields `Infinity`, are outside what the carrier holds. The definitions of this section are
the pricing functions of the checkout page with each operation rounded; the definitions of
the same name outside `Binary64` are their exact-arithmetic reading. -/

namespace Binary64

/-- The integer nearest to `y`, the even one when `y` is half-way between two. -/
def roundHalfEven (y : ℚ) : ℤ :=
  if y - ⌊y⌋ < 1 / 2 then ⌊y⌋
  else if 1 / 2 < y - ⌊y⌋ then ⌊y⌋ + 1
  else if ⌊y⌋ % 2 = 0 then ⌊y⌋ else ⌊y⌋ + 1

/-- The binary64 value nearest to `x`, ties to even: with `e` the binary exponent of `x`,
not below -1022, the mantissa `x / 2 ^ (e - 52)` is rounded to an integer. -/
def roundDouble (x : ℚ) : ℚ :=
  if x = 0 then 0
  else (roundHalfEven (x * 2 ^ (52 - max (Int.log 2 |x|) (-1022))) : ℚ)
    * 2 ^ (max (Int.log 2 |x|) (-1022) - 52)

/-- The JavaScript `a + b`. -/
def add (a b : ℚ) : ℚ := roundDouble (a + b)

/-- The JavaScript `a - b`. -/
def sub (a b : ℚ) : ℚ := roundDouble (a - b)

/-- The JavaScript `a * b`. -/
def mul (a b : ℚ) : ℚ := roundDouble (a * b)

/-- `calculateSubtotal` (CheckoutPage.js 51-54, CartPage.js 52-55) in double precision:
`cart.items.reduce((sum, item) => sum + (item.price * item.quantity), 0)`. -/
def calculateSubtotal (cart : Option Cart) : ℚ :=
  match cart with
  | none => 0
  | some c =>
    match c.items with
    | none => 0
    | some items => items.foldl (fun sum item => add sum (mul item.price item.quantity)) 0

/-- `const subtotal = calculateSubtotal();` (CheckoutPage.js 137). -/
def subtotal (s : CheckoutState) : ℚ := calculateSubtotal s.cart

/-- `const shipping = subtotal >= 100 ? 0 : 10;` (CheckoutPage.js 138). -/
def shipping (s : CheckoutState) : ℚ := if subtotal s ≥ 100 then 0 else 10

/-- `const tax = (subtotal - discount) * 0.1;` (CheckoutPage.js 139); the literal `0.1` is
the double nearest to one tenth. -/
def tax (s : CheckoutState) : ℚ := mul (sub (subtotal s) s.discount) (roundDouble 0.1)

/-- `const total = subtotal - discount + shipping + tax;` (CheckoutPage.js 140), evaluated
from left to right. -/
def total (s : CheckoutState) : ℚ :=
  add (add (sub (subtotal s) s.discount) (shipping s)) (tax s)

/-- Three cart lines of quantity 1 whose prices are the doubles nearest to 14.29, 49.91 and
35.8, as `GET /cart` delivers them. -/
def driftItems : List CartItem :=
  [{ variant_id := "a", price := roundDouble (1429 / 100), quantity := 1 },
   { variant_id := "b", price := roundDouble (4991 / 100), quantity := 1 },
   { variant_id := "c", price := roundDouble (358 / 10), quantity := 1 }]

/-- The cart holding `driftItems`. -/
def driftCart : Cart := { items := some driftItems }

end Binary64

/-! ## The product detail page -/

namespace ProductDetailPage

/-- A variant of a product, as far as the page reads it. -/
structure Variant where
  id : String
  price : ℚ
  inventory_quantity : ℚ
  deriving DecidableEq

/-- The state of `ProductDetailPage` that the quantity controls and `handleAddToCart` read:
whether `user` is set, `selectedVariant` and `quantity` (ProductDetailPage.js 8-12). -/
structure DetailState where
  user : Bool
  selectedVariant : Option Variant
  quantity : ℚ
  deriving DecidableEq

/-- The observable effects of `handleAddToCart`. -/
inductive DetailEffect where
  | onShowAuth
  | postCartItem (variant_id : String) (quantity : ℚ)
  | onCartUpdate
  | toastError (msg : String)
  | toastSuccess (msg : String)
  deriving DecidableEq

/-- The user's actions on the page. -/
inductive DetailEvent where
  | selectVariant (variant : Variant)
  | increase
  | decrease
  deriving DecidableEq

/-- Whether the quantity selector and the add-to-cart button are rendered
(ProductDetailPage.js 155, 183): `selectedVariant && selectedVariant.inventory_quantity > 0`. -/
def selectorShown (s : DetailState) : Bool :=
  match s.selectedVariant with
  | some variant => decide (variant.inventory_quantity > 0)
  | none => false

/-- One action (ProductDetailPage.js 116, 162, 173): `setSelectedVariant(variant)`,
`setQuantity(Math.min(selectedVariant.inventory_quantity, quantity + 1))`,
`setQuantity(Math.max(1, quantity - 1))`; the two quantity buttons exist only while the
selector is rendered. -/
def detailStep (s : DetailState) : DetailEvent → DetailState
  | DetailEvent.selectVariant variant => { s with selectedVariant := some variant }
  | DetailEvent.increase =>
    match s.selectedVariant with
    | some variant =>
      if variant.inventory_quantity > 0 then
        { s with quantity := min variant.inventory_quantity (s.quantity + 1) }
      else s
    | none => s
  | DetailEvent.decrease =>
    match s.selectedVariant with
    | some variant =>
      if variant.inventory_quantity > 0 then { s with quantity := max 1 (s.quantity - 1) }
      else s
    | none => s

/-- The page after the given actions. -/
def detailRun (s : DetailState) (events : List DetailEvent) : DetailState :=
  events.foldl detailStep s

/-- `handleAddToCart` (ProductDetailPage.js 34-55); `post` is `POST /cart/items`. -/
def handleAddToCart (post : String → ℚ → Except JsError Unit) (s : DetailState) :
    List DetailEffect :=
  if !s.user then [DetailEffect.onShowAuth]
  else
    match s.selectedVariant with
    | none => [DetailEffect.toastError "Please select a variant"]
    | some variant =>
      match post variant.id s.quantity with
      | Except.ok _ =>
        [DetailEffect.postCartItem variant.id s.quantity,
         DetailEffect.toastSuccess "Added to cart!", DetailEffect.onCartUpdate]
      | Except.error error =>
        [DetailEffect.postCartItem variant.id s.quantity,
         DetailEffect.toastError (orElse error.responseDetail "Failed to add to cart")]

/-- A variant with 5 pieces in stock. -/
def variantLarge : Variant := { id := "sku-L", price := 25, inventory_quantity := 5 }

/-- A variant with 2 pieces in stock. -/
def variantSmall : Variant := { id := "sku-S", price := 25, inventory_quantity := 2 }

/-- The page of a signed-in user once the product has loaded: the first variant is
selected and the quantity is 1 (ProductDetailPage.js 12, 23-25). -/
def loadedState : DetailState :=
  { user := true, selectedVariant := some variantLarge, quantity := 1 }

end ProductDetailPage

/-! ## Auxiliary lemmas -/

/-- The `reduce` of `calculateSubtotal`, started from any accumulator, adds the line totals. -/
theorem foldl_lineTotals (items : List CartItem) (acc : ℚ) :
    items.foldl (fun sum item => sum + item.price * item.quantity) acc
      = acc + (items.map (fun item => item.price * item.quantity)).sum := by
  induction items generalizing acc with
  | nil => simp
  | cons item rest ih =>
    simp only [List.foldl_cons, List.map_cons, List.sum_cons]
    rw [ih]
    ring

/-- The subtotal of a non-negative cart is non-negative. -/
theorem calculateSubtotal_nonneg (cart : Option Cart) (h : Cart.NonNeg cart) :
    0 ≤ calculateSubtotal cart := by
  unfold calculateSubtotal
  cases cart with
  | none => simp
  | some c =>
    cases hi : c.items with
    | none => simp [hi]
    | some items =>
      simp only [hi]
      rw [foldl_lineTotals, zero_add]
      apply List.sum_nonneg
      intro x hx
      obtain ⟨item, hmem, rfl⟩ := List.mem_map.mp hx
      have := h c rfl items hi item hmem
      exact mul_nonneg this.1 this.2

/-- The discount stored by `applyCoupon` after a successful validation of a non-empty code. -/
theorem applyCoupon_discount_of_ok (validate : String → Except JsError CouponData)
    (s : CheckoutState) (data : CouponData)
    (hcode : s.couponCode ≠ "") (hv : validate s.couponCode = Except.ok data) :
    (applyCoupon validate s).1.discount =
      if data.type = "percentage" then
        match data.max_discount with
        | some cap =>
          if cap ≠ 0 then min (subtotal s * (data.value / 100)) cap
          else subtotal s * (data.value / 100)
        | none => subtotal s * (data.value / 100)
      else data.value := by
  simp only [applyCoupon, hcode, if_false, hv, subtotal]

/-- A percentage of a non-negative amount stays within the amount exactly when the amount
is zero or the percentage is at most 100. -/
theorem percent_le_self_iff (amount value : ℚ) (h : 0 ≤ amount) :
    amount * (value / 100) ≤ amount ↔ amount = 0 ∨ value ≤ 100 := by
  rcases h.eq_or_lt with h0 | hpos
  · simp [← h0]
  · rw [mul_le_iff_le_one_right hpos]
    constructor
    · intro hv
      right
      linarith
    · rintro (h0 | hv)
      · exact absurd h0 (ne_of_gt hpos)
      · linarith

/-! ## Auxiliary lemmas on the page transition system -/

/-- `fetchCart` writes the cart cell only. -/
theorem fetchCart_frame (response : Except JsError Cart) (s : CheckoutState) :
    (fetchCart response s).1 = s
      ∨ ∃ data, response = Except.ok data ∧ (fetchCart response s).1 = { s with cart := some data }
          ∧ ∃ items, data.items = some items ∧ items ≠ [] := by
  unfold fetchCart
  cases response with
  | error e => exact Or.inl rfl
  | ok data =>
    cases hi : data.items with
    | none =>
      left
      simp only [hi]
    | some items =>
      by_cases hlen : items.length = 0
      · left
        simp only [hi, hlen, if_true]
      · right
        refine ⟨data, rfl, ?_, items, hi, ?_⟩
        · simp only [hi, hlen, if_false]
        · intro hnil
          exact hlen (by rw [hnil]; rfl)

/-- `applyCoupon` writes the discount cell only. -/
theorem applyCoupon_frame (validate : String → Except JsError CouponData) (s : CheckoutState) :
    (applyCoupon validate s).1 = { s with discount := (applyCoupon validate s).1.discount } := by
  unfold applyCoupon
  by_cases hcode : s.couponCode = ""
  · simp [hcode]
  · cases hv : validate s.couponCode with
    | error e => simp [hcode]
    | ok data => simp [hcode]

/-- A property that holds when the page mounts and is kept by every step holds in every
reachable page. -/
theorem reachable_induction (P : Page → Prop) (hinit : P initialPage)
    (hstep : ∀ p e, P p → P (pageStep p e).1) (p : Page) (h : Reachable p) : P p := by
  obtain ⟨events, rfl⟩ := h
  have key : ∀ (events : List PageEvent) (q : Page), P q → P (runFrom q events) := by
    intro events
    induction events with
    | nil =>
      intro q hq
      exact hq
    | cons e rest ih =>
      intro q hq
      exact ih (pageStep q e).1 (hstep q e hq)
  exact key events initialPage hinit

/-- Every step keeps the held cart unset or non-empty. -/
theorem pageStep_cartLoadedOrUnset (p : Page) (e : PageEvent)
    (h : CartLoadedOrUnset p.state.cart) : CartLoadedOrUnset (pageStep p e).1.state.cart := by
  cases e with
  | hooks stripe elements => exact h
  | fetchCartSettled response =>
    simp only [pageStep]
    rcases fetchCart_frame response p.state with hsame | ⟨data, _, hset, items, hitems, hne⟩
    · rw [hsame]
      exact h
    · rw [hset]
      exact Or.inr ⟨data, items, rfl, hitems, hne⟩
  | setCouponCode code => exact h
  | setShippingAddress address => exact h
  | applyCouponClicked =>
    simp only [pageStep, applyCouponStart]
    split
    · exact h
    · exact h
  | couponSettled i response =>
    simp only [pageStep, settleCoupon]
    split
    · exact h
    · exact h
  | placeOrder =>
    simp only [pageStep, submitStart]
    split
    · exact h
    · split
      · exact h
      · exact h
  | checkoutSettled i response =>
    simp only [pageStep, settleCheckout, catchAttempt, finishAttempt]
    split
    · split
      · exact h
      · exact h
    · exact h
  | paymentSettled i response =>
    simp only [pageStep, settlePayment, catchAttempt, finishAttempt]
    split
    · split
      · exact h
      · split
        · exact h
        · split
          · exact h
          · split
            · exact h
            · exact h
    · exact h
  | confirmSettled i response =>
    simp only [pageStep, settleConfirm, catchAttempt, finishAttempt]
    split
    · split
      · exact h
      · exact h
    · exact h

/-- `fetchCart` does not touch `loading`. -/
theorem fetchCart_loading (response : Except JsError Cart) (s : CheckoutState) :
    (fetchCart response s).1.loading = s.loading := by
  rcases fetchCart_frame response s with h | ⟨data, _, h, _⟩ <;> rw [h]

/-- `applyCoupon` does not touch `loading`. -/
theorem applyCoupon_loading (validate : String → Except JsError CouponData)
    (s : CheckoutState) : (applyCoupon validate s).1.loading = s.loading := by
  rw [applyCoupon_frame]

/-- Every step keeps at most one run of `handleSubmit` suspended, with `loading` set. -/
theorem pageStep_singleAttempt (p : Page) (e : PageEvent) (h : SingleAttempt p) :
    SingleAttempt (pageStep p e).1 := by
  cases e with
  | hooks stripe elements => exact h
  | fetchCartSettled response =>
    rcases h with h | ⟨hl, x, hx⟩
    · exact Or.inl h
    · exact Or.inr ⟨by simp only [pageStep]; rw [fetchCart_loading]; exact hl, x, hx⟩
  | setCouponCode code => exact h
  | setShippingAddress address => exact h
  | applyCouponClicked =>
    simp only [pageStep, applyCouponStart]
    split
    · exact h
    · exact h
  | couponSettled i response =>
    simp only [pageStep, settleCoupon]
    split
    · exact h
    · exact h
  | placeOrder =>
    simp only [pageStep]
    by_cases hblocked :
        (placeOrderDisabled p.state || !requiredFieldsFilled p.state.shippingAddress) = true
    · rw [if_pos hblocked]
      exact h
    · rw [if_neg hblocked]
      have hdis : ¬ (placeOrderDisabled p.state = true) := by
        intro hd
        exact hblocked (by simp [hd])
      have hload : p.state.loading = false := by
        cases hl : p.state.loading
        · rfl
        · simp [placeOrderDisabled, hl] at hdis
      have hnil : p.inflight = [] := by
        rcases h with h | ⟨hl, _⟩
        · exact h
        · rw [hload] at hl
          exact absurd hl (by decide)
      unfold submitStart
      split
      · exact Or.inl hnil
      · right
        exact ⟨rfl, Pending.checkout p.state, by simp [hnil]⟩
  | checkoutSettled i response =>
    simp only [pageStep, settleCheckout, catchAttempt, finishAttempt]
    rcases h with h | ⟨hl, x, hx⟩
    · simp only [h, List.get?_nil]
      exact Or.inl h
    · cases i with
      | zero =>
        simp only [hx, List.get?_cons_zero]
        cases x with
        | checkout closure =>
          cases response with
          | error error => exact Or.inl rfl
          | ok data => exact Or.inr ⟨hl, Pending.payment closure data, rfl⟩
        | payment closure data => exact Or.inr ⟨hl, _, hx⟩
        | confirm closure data => exact Or.inr ⟨hl, _, hx⟩
      | succ n =>
        simp only [hx, List.get?_cons_succ, List.get?_nil]
        exact Or.inr ⟨hl, x, hx⟩
  | paymentSettled i response =>
    simp only [pageStep, settlePayment, catchAttempt, finishAttempt]
    rcases h with h | ⟨hl, x, hx⟩
    · simp only [h, List.get?_nil]
      exact Or.inl h
    · cases i with
      | zero =>
        simp only [hx, List.get?_cons_zero]
        cases x with
        | checkout closure => exact Or.inr ⟨hl, _, hx⟩
        | payment closure data =>
          cases response with
          | error error => exact Or.inl rfl
          | ok result =>
            cases herr : result.error with
            | some error => exact Or.inl (by simp [herr])
            | none =>
              cases hpi : result.paymentIntent with
              | none => exact Or.inl (by simp [herr, hpi])
              | some paymentIntent =>
                by_cases hst : paymentIntent.status = "succeeded"
                · right
                  simp only [herr, hpi, hst, if_true]
                  exact ⟨hl, Pending.confirm closure data, rfl⟩
                · exact Or.inl (by simp [herr, hpi, hst])
        | confirm closure data => exact Or.inr ⟨hl, _, hx⟩
      | succ n =>
        simp only [hx, List.get?_cons_succ, List.get?_nil]
        exact Or.inr ⟨hl, x, hx⟩
  | confirmSettled i response =>
    simp only [pageStep, settleConfirm, catchAttempt, finishAttempt]
    rcases h with h | ⟨hl, x, hx⟩
    · simp only [h, List.get?_nil]
      exact Or.inl h
    · cases i with
      | zero =>
        simp only [hx, List.get?_cons_zero]
        cases x with
        | checkout closure => exact Or.inr ⟨hl, _, hx⟩
        | payment closure data => exact Or.inr ⟨hl, _, hx⟩
        | confirm closure data =>
          cases response with
          | error error => exact Or.inl rfl
          | ok u => exact Or.inl rfl
      | succ n =>
        simp only [hx, List.get?_cons_succ, List.get?_nil]
        exact Or.inr ⟨hl, x, hx⟩

/-- A run of `handleSubmit` taken step by step, with no other event in between, ends in the
state and with the effects of `handleSubmit`, and leaves nothing suspended. -/
theorem attempt_eq_handleSubmit (env : CheckoutEnv) (s : CheckoutState) :
    (attempt env s).1.state = (handleSubmit env s).1
      ∧ (attempt env s).2 = (handleSubmit env s).2
      ∧ (attempt env s).1.inflight = [] := by
  unfold attempt handleSubmit submitStart
  by_cases hready : (!s.stripe || !s.elements) = true
  · simp [hready, settleWith]
  · simp only [hready, if_false, List.nil_append]
    cases hc : env.postCheckout (checkoutBody s) with
    | error e =>
      simp [settleWith, settleCheckout, catchAttempt, finishAttempt, handleSubmitCatch, hc]
    | ok data =>
      cases hp : env.confirmCardPayment data.client_secret (billingDetails s) with
      | error e =>
        simp [settleWith, settleCheckout, settlePayment, catchAttempt, finishAttempt,
          handleSubmitCatch, hc, hp]
      | ok result =>
        cases herr : result.error with
        | some err =>
          simp [settleWith, settleCheckout, settlePayment, catchAttempt, finishAttempt,
            handleSubmitCatch, hc, hp, herr]
        | none =>
          cases hpi : result.paymentIntent with
          | none =>
            simp [settleWith, settleCheckout, settlePayment, catchAttempt, finishAttempt,
              handleSubmitCatch, hc, hp, herr, hpi]
          | some paymentIntent =>
            by_cases hst : paymentIntent.status = "succeeded"
            · cases hconf :
                  env.postOrderConfirm ("/orders/" ++ data.order_id ++ "/confirm") with
              | error e =>
                simp [settleWith, settleCheckout, settlePayment, settleConfirm, catchAttempt,
                  finishAttempt, handleSubmitCatch, hc, hp, herr, hpi, hst, hconf]
              | ok u =>
                simp [settleWith, settleCheckout, settlePayment, settleConfirm, catchAttempt,
                  finishAttempt, handleSubmitCatch, hc, hp, herr, hpi, hst, hconf]
            · simp [settleWith, settleCheckout, settlePayment, catchAttempt, finishAttempt,
                handleSubmitCatch, hc, hp, herr, hpi, hst]

/-! ## Auxiliary lemmas on the cart page and on the request body -/

/-- The only `PUT` of `updateQuantity` is the one for the variant and quantity it was
called with. -/
theorem CartPage.putCartItem_mem_updateQuantity (env : CartPage.CartEnv)
    (variantId : String) (quantity : ℚ) (s : CartPage.CartState) (v : String) (q : ℚ) :
    CartPage.CartEffect.putCartItem v q ∈ (CartPage.updateQuantity env variantId quantity s).2
      ↔ v = variantId ∧ q = quantity := by
  unfold CartPage.updateQuantity CartPage.fetchCart
  cases hp : env.putCartItem variantId quantity with
  | error e => simp
  | ok u => cases hg : env.getCart <;> simp

/-- `handleSubmit` issues `POST /checkout` exactly when both processor hooks are available,
and then with the body built from the state. -/
theorem handleSubmit_postCheckout_mem (env : CheckoutEnv) (s : CheckoutState)
    (body : CheckoutBody) :
    Effect.postCheckout body ∈ (handleSubmit env s).2 ↔
      s.stripe = true ∧ s.elements = true ∧ body = checkoutBody s := by
  unfold handleSubmit
  by_cases hready : (!s.stripe || !s.elements) = true
  · rw [if_pos hready]
    have : ¬ (s.stripe = true ∧ s.elements = true) := by
      intro h
      simp [h.1, h.2] at hready
    constructor
    · intro h
      simp at h
    · intro h
      exact absurd ⟨h.1, h.2.1⟩ this
  · rw [if_neg hready]
    have hs : s.stripe = true ∧ s.elements = true := by
      cases h1 : s.stripe <;> cases h2 : s.elements <;> simp [h1, h2] at hready ⊢
    cases hc : env.postCheckout (checkoutBody s) with
    | error e => simp [handleSubmitCatch, hs.1, hs.2]
    | ok data =>
      cases hp : env.confirmCardPayment data.client_secret (billingDetails s) with
      | error e => simp [handleSubmitCatch, hp, hs.1, hs.2]
      | ok result =>
        cases herr : result.error with
        | some err => simp [hp, herr, hs.1, hs.2]
        | none =>
          cases hpi : result.paymentIntent with
          | none => simp [handleSubmitCatch, hp, herr, hpi, hs.1, hs.2]
          | some paymentIntent =>
            by_cases hst : paymentIntent.status = "succeeded"
            · cases hconf :
                  env.postOrderConfirm ("/orders/" ++ data.order_id ++ "/confirm") with
              | error e =>
                simp [handleSubmitCatch, hp, herr, hpi, hst, hconf, hs.1, hs.2]
              | ok u => simp [hp, herr, hpi, hst, hconf, hs.1, hs.2]
            · simp [hp, herr, hpi, hst, hs.1, hs.2]

/-! ## Auxiliary lemmas on double precision -/

/-- In exact arithmetic `calculateSubtotal` is the sum of the line totals, 0 for an empty or
absent list and for an absent cart. -/
theorem calculateSubtotal_exact_eq_sum (items : List CartItem) :
    calculateSubtotal (some { items := some items })
        = (items.map (fun item => item.price * item.quantity)).sum
      ∧ calculateSubtotal (some { items := some [] }) = 0
      ∧ calculateSubtotal (some { items := none }) = 0
      ∧ calculateSubtotal none = 0 := by
  refine ⟨?_, ?_, ?_, ?_⟩
  · simp only [calculateSubtotal]
    rw [foldl_lineTotals, zero_add]
  · simp [calculateSubtotal]
  · simp [calculateSubtotal]
  · simp [calculateSubtotal]

/-- The binary exponent of a positive rational is the `e` with `2 ^ e ≤ x < 2 ^ (e + 1)`. -/
theorem Binary64.log_eq (x : ℚ) (e : ℤ) (hlo : (2 : ℚ) ^ e ≤ x) (hhi : x < 2 ^ (e + 1)) :
    Int.log 2 x = e := by
  have hpos : 0 < x := lt_of_lt_of_le (by positivity) hlo
  apply le_antisymm
  · have hlt := (Int.lt_zpow_iff_log_lt (b := 2) (by norm_num) hpos (x := e + 1)).mp
      (by exact_mod_cast hhi)
    omega
  · exact (Int.zpow_le_iff_le_log (b := 2) (by norm_num) hpos).mp (by exact_mod_cast hlo)

/-- Rounding a positive rational of known binary exponent in the normal range. -/
theorem Binary64.roundDouble_eq (x : ℚ) (e m : ℤ) (hlo : (2 : ℚ) ^ e ≤ x)
    (hhi : x < 2 ^ (e + 1)) (hnormal : -1022 ≤ e)
    (hm : Binary64.roundHalfEven (x * 2 ^ (52 - e)) = m) :
    Binary64.roundDouble x = m * 2 ^ (e - 52) := by
  have hpos : 0 < x := lt_of_lt_of_le (by positivity) hlo
  unfold Binary64.roundDouble
  rw [if_neg (ne_of_gt hpos), abs_of_pos hpos, Binary64.log_eq x e hlo hhi,
    max_eq_left hnormal, hm]

/-- The double-precision `reduce` of `calculateSubtotal` adds the line totals exactly when no
product and no partial sum is changed by rounding. -/
theorem Binary64.foldl_exact (items : List CartItem) (acc : ℚ)
    (hproduct : ∀ item ∈ items,
      Binary64.roundDouble (item.price * item.quantity) = item.price * item.quantity)
    (hsums : ∀ k, 1 ≤ k → k ≤ items.length →
      Binary64.roundDouble
          (acc + ((items.take k).map (fun item => item.price * item.quantity)).sum)
        = acc + ((items.take k).map (fun item => item.price * item.quantity)).sum) :
    items.foldl (fun sum item => Binary64.add sum (Binary64.mul item.price item.quantity)) acc
      = acc + (items.map (fun item => item.price * item.quantity)).sum := by
  induction items generalizing acc with
  | nil => simp
  | cons item rest ih =>
    have hhead : Binary64.add acc (Binary64.mul item.price item.quantity)
        = acc + item.price * item.quantity := by
      unfold Binary64.add Binary64.mul
      rw [hproduct item (List.mem_cons_self _ _)]
      have h1 := hsums 1 (le_refl 1) (by simp)
      simpa using h1
    simp only [List.foldl_cons, List.map_cons, List.sum_cons]
    rw [hhead, ih (acc + item.price * item.quantity)
      (fun x hx => hproduct x (List.mem_cons_of_mem _ hx))]
    · ring
    · intro k hk1 hk2
      have hstep := hsums (k + 1) (by omega) (by simpa using hk2)
      simp only [List.take_succ_cons, List.map_cons, List.sum_cons] at hstep
      rw [add_assoc]
      exact hstep

/-- The double nearest to 14.29. -/
theorem Binary64.roundDouble_14_29 :
    Binary64.roundDouble (1429 / 100) = 2011138708597637 / 140737488355328 := by
  rw [Binary64.roundDouble_eq _ 3 8044554834390548 (by norm_num) (by norm_num) (by norm_num)
    (by norm_num [Binary64.roundHalfEven])]
  norm_num

/-- The double nearest to 49.91. -/
theorem Binary64.roundDouble_49_91 :
    Binary64.roundDouble (4991 / 100) = 1756052010953605 / 35184372088832 := by
  rw [Binary64.roundDouble_eq _ 5 7024208043814420 (by norm_num) (by norm_num) (by norm_num)
    (by norm_num [Binary64.roundHalfEven])]
  norm_num

/-- The double nearest to 35.8. -/
theorem Binary64.roundDouble_35_8 :
    Binary64.roundDouble (358 / 10) = 2519201041560371 / 70368744177664 := by
  rw [Binary64.roundDouble_eq _ 5 5038402083120742 (by norm_num) (by norm_num) (by norm_num)
    (by norm_num [Binary64.roundHalfEven])]
  norm_num

/-- The double 14.29 is kept by rounding. -/
theorem Binary64.roundDouble_price_a :
    Binary64.roundDouble (2011138708597637 / 140737488355328) = 2011138708597637 / 140737488355328 := by
  rw [Binary64.roundDouble_eq _ 3 8044554834390548 (by norm_num) (by norm_num) (by norm_num)
    (by norm_num [Binary64.roundHalfEven])]
  norm_num

/-- The double 49.91 is kept by rounding. -/
theorem Binary64.roundDouble_price_b :
    Binary64.roundDouble (1756052010953605 / 35184372088832) = 1756052010953605 / 35184372088832 := by
  rw [Binary64.roundDouble_eq _ 5 7024208043814420 (by norm_num) (by norm_num) (by norm_num)
    (by norm_num [Binary64.roundHalfEven])]
  norm_num

/-- The double 35.8 is kept by rounding. -/
theorem Binary64.roundDouble_price_c :
    Binary64.roundDouble (2519201041560371 / 70368744177664) = 2519201041560371 / 70368744177664 := by
  rw [Binary64.roundDouble_eq _ 5 5038402083120742 (by norm_num) (by norm_num) (by norm_num)
    (by norm_num [Binary64.roundHalfEven])]
  norm_num

/-- The double sum 14.29 + 49.91 is 64.19999999999999. -/
theorem Binary64.roundDouble_a_add_b :
    Binary64.roundDouble (9035346752412057 / 140737488355328) = 1129418344051507 / 17592186044416 := by
  rw [Binary64.roundDouble_eq _ 6 4517673376206028 (by norm_num) (by norm_num) (by norm_num)
    (by norm_num [Binary64.roundHalfEven])]
  norm_num

/-- The double sum 64.19999999999999 + 35.8 is 99.99999999999999. -/
theorem Binary64.roundDouble_ab_add_c :
    Binary64.roundDouble (7036874417766399 / 70368744177664) = 7036874417766399 / 70368744177664 := by
  rw [Binary64.roundDouble_eq _ 6 7036874417766399 (by norm_num) (by norm_num) (by norm_num)
    (by norm_num [Binary64.roundHalfEven])]
  norm_num

/-- The double nearest to one tenth. -/
theorem Binary64.roundDouble_tenth :
    Binary64.roundDouble (1 / 10) = 3602879701896397 / 36028797018963968 := by
  rw [Binary64.roundDouble_eq _ (-4) 7205759403792794 (by norm_num) (by norm_num) (by norm_num)
    (by norm_num [Binary64.roundHalfEven])]
  norm_num

/-- The number 3 is a double. -/
theorem Binary64.roundDouble_3 :
    Binary64.roundDouble (3) = 3 := by
  rw [Binary64.roundDouble_eq _ 1 6755399441055744 (by norm_num) (by norm_num) (by norm_num)
    (by norm_num [Binary64.roundHalfEven])]
  norm_num

/-- The double product 3 * 0.1 is 0.30000000000000004. -/
theorem Binary64.roundDouble_3_mul_tenth :
    Binary64.roundDouble (10808639105689191 / 36028797018963968) = 1351079888211149 / 4503599627370496 := by
  rw [Binary64.roundDouble_eq _ (-2) 5404319552844596 (by norm_num) (by norm_num) (by norm_num)
    (by norm_num [Binary64.roundHalfEven])]
  norm_num

/-- The number 13 is a double. -/
theorem Binary64.roundDouble_13 :
    Binary64.roundDouble (13) = 13 := by
  rw [Binary64.roundDouble_eq _ 3 7318349394477056 (by norm_num) (by norm_num) (by norm_num)
    (by norm_num [Binary64.roundHalfEven])]
  norm_num

/-- The double sum 13 + 0.30000000000000004 is 13.3. -/
theorem Binary64.roundDouble_13_add_tax :
    Binary64.roundDouble (59897875044027597 / 4503599627370496) = 3743617190251725 / 281474976710656 := by
  rw [Binary64.roundDouble_eq _ 3 7487234380503450 (by norm_num) (by norm_num) (by norm_num)
    (by norm_num [Binary64.roundHalfEven])]
  norm_num

/-- The double nearest to 0.3. -/
theorem Binary64.roundDouble_three_tenths :
    Binary64.roundDouble (3 / 10) = 5404319552844595 / 18014398509481984 := by
  rw [Binary64.roundDouble_eq _ (-2) 5404319552844595 (by norm_num) (by norm_num) (by norm_num)
    (by norm_num [Binary64.roundHalfEven])]
  norm_num

/-- The number 120 is a double. -/
theorem Binary64.roundDouble_120 :
    Binary64.roundDouble (120) = 120 := by
  rw [Binary64.roundDouble_eq _ 6 8444249301319680 (by norm_num) (by norm_num) (by norm_num)
    (by norm_num [Binary64.roundHalfEven])]
  norm_num

/-- The double product 120 * 0.1 is 12. -/
theorem Binary64.roundDouble_120_mul_tenth :
    Binary64.roundDouble (54043195528445955 / 4503599627370496) = 12 := by
  rw [Binary64.roundDouble_eq _ 3 6755399441055744 (by norm_num) (by norm_num) (by norm_num)
    (by norm_num [Binary64.roundHalfEven])]
  norm_num

/-- The number 132 is a double. -/
theorem Binary64.roundDouble_132 :
    Binary64.roundDouble (132) = 132 := by
  rw [Binary64.roundDouble_eq _ 7 4644337115725824 (by norm_num) (by norm_num) (by norm_num)
    (by norm_num [Binary64.roundHalfEven])]
  norm_num

/-! ## Auxiliary lemmas on the coupon validation as a suspended handler -/

/-- A click on Apply followed by the settlement of its request, with no other event in
between, ends with the discount and with the effects of `applyCoupon`. -/
theorem applyCoupon_click_then_settle (s : CheckoutState)
    (response : Except JsError CouponData) (hcode : s.couponCode ≠ "") :
    (settleCoupon (applyCouponStart { state := s, inflight := [] }).1 0 response).1.state
        = (applyCoupon (fun _ => response) s).1
      ∧ (applyCouponStart { state := s, inflight := [] }).2
          ++ (settleCoupon (applyCouponStart { state := s, inflight := [] }).1 0 response).2
        = (applyCoupon (fun _ => response) s).2
      ∧ (settleCoupon (applyCouponStart { state := s, inflight := [] }).1 0
          response).1.validations = [] := by
  have hframe := applyCoupon_frame (fun _ => response) s
  refine ⟨?_, ?_, ?_⟩
  · simp only [applyCouponStart, hcode, if_false, settleCoupon, List.nil_append,
      List.get?_cons_zero]
    exact hframe.symm
  · simp only [applyCouponStart, hcode, if_false, settleCoupon, List.nil_append,
      List.get?_cons_zero]
    cases response with
    | error e => simp [applyCoupon, hcode]
    | ok data => simp [applyCoupon, hcode]
  · simp [applyCouponStart, hcode, settleCoupon]

/-- The discount stored when a validation settles comes from the cart held at the click:
Apply is clicked with the code SAVE15 while `GET /cart` is pending, a cart of 1 × 200
loads, then the validation answers with a 15% coupon; the discount stored is 0. -/
theorem coupon_settles_on_click_time_cart :
    (run [PageEvent.setCouponCode "SAVE15", PageEvent.applyCouponClicked,
          PageEvent.fetchCartSettled (Except.ok (singleLineCart 200 1)),
          PageEvent.couponSettled 0
            (Except.ok { type := "percentage", value := 15, max_discount := none })]
      ).state.discount = 0
      ∧ subtotal (run [PageEvent.setCouponCode "SAVE15", PageEvent.applyCouponClicked,
          PageEvent.fetchCartSettled (Except.ok (singleLineCart 200 1)),
          PageEvent.couponSettled 0
            (Except.ok { type := "percentage", value := 15, max_discount := none })]
        ).state = 200 := by
  have h2 : ¬ ("SAVE15" = "") := by decide
  refine ⟨?_, ?_⟩
  · norm_num [run, runFrom, pageStep, applyCouponStart, settleCoupon, applyCoupon, fetchCart,
      initialPage, initialState, singleLineCart, calculateSubtotal, h2]
  · norm_num [run, runFrom, pageStep, applyCouponStart, settleCoupon, applyCoupon, fetchCart,
      initialPage, initialState, singleLineCart, calculateSubtotal, subtotal, h2]

/-- While a required field of the address is empty a click on the place-order button runs
no `handleSubmit`. -/
theorem placeOrder_needs_required_fields (p : Page)
    (hempty : requiredFieldsFilled p.state.shippingAddress = false) :
    pageStep p PageEvent.placeOrder = (p, []) := by
  simp [pageStep, hempty]

/-! ## Pricing engine (C1, C5, C6, C7) -/

/-- C1, as stated, fails: for a cart of three lines of quantity 1 priced 14.29, 49.91 and
35.8, `calculateSubtotal` returns 99.99999999999999, the double below 100, which is
neither the sum of the three prices as the doubles they are nor 100. -/
theorem calculateSubtotal_not_exact_sum :
    Binary64.calculateSubtotal (some Binary64.driftCart)
        = 7036874417766399 / 70368744177664
      ∧ (Binary64.driftItems.map (fun item => item.price * item.quantity)).sum
        = 14073748835532799 / 140737488355328
      ∧ (7036874417766399 / 70368744177664 : ℚ) ≠ 14073748835532799 / 140737488355328
      ∧ (7036874417766399 / 70368744177664 : ℚ) ≠ 100 := by
  refine ⟨?_, ?_, ?_, ?_⟩
  · simp only [Binary64.calculateSubtotal, Binary64.driftCart, Binary64.driftItems,
      List.foldl, Binary64.add,
      Binary64.mul, Binary64.roundDouble_14_29, Binary64.roundDouble_49_91,
      Binary64.roundDouble_35_8, mul_one, zero_add, Binary64.roundDouble_price_a,
      Binary64.roundDouble_price_b, Binary64.roundDouble_price_c]
    rw [show (2011138708597637 / 140737488355328 + 1756052010953605 / 35184372088832 : ℚ)
        = 9035346752412057 / 140737488355328 by norm_num,
      Binary64.roundDouble_a_add_b,
      show (1129418344051507 / 17592186044416 + 2519201041560371 / 70368744177664 : ℚ)
        = 7036874417766399 / 70368744177664 by norm_num,
      Binary64.roundDouble_ab_add_c]
  · simp only [Binary64.driftItems, List.map_cons, List.map_nil, List.sum_cons, List.sum_nil,
      Binary64.roundDouble_14_29, Binary64.roundDouble_49_91, Binary64.roundDouble_35_8]
    norm_num
  · norm_num
  · norm_num

/-- C1, amended: for a cart whose items list is present `calculateSubtotal` is the sum over
the items of price × quantity accumulated from left to right in double precision: each
product and each partial sum is rounded to the nearest double and nothing else is rounded.
It is exactly the sum whenever no product and no partial sum is changed by that rounding.
It is 0 for the empty list and when the cart or its items list is absent. -/
theorem calculateSubtotal_double_sum (items : List CartItem) :
    Binary64.calculateSubtotal (some { items := some items })
        = items.foldl
            (fun sum item =>
              Binary64.roundDouble
                (sum + Binary64.roundDouble (item.price * item.quantity))) 0
      ∧ ((∀ item ∈ items,
            Binary64.roundDouble (item.price * item.quantity) = item.price * item.quantity) →
          (∀ k, 1 ≤ k → k ≤ items.length →
            Binary64.roundDouble
                (((items.take k).map (fun item => item.price * item.quantity)).sum)
              = ((items.take k).map (fun item => item.price * item.quantity)).sum) →
          Binary64.calculateSubtotal (some { items := some items })
            = (items.map (fun item => item.price * item.quantity)).sum)
      ∧ Binary64.calculateSubtotal (some { items := some [] }) = 0
      ∧ Binary64.calculateSubtotal (some { items := none }) = 0
      ∧ Binary64.calculateSubtotal none = 0 := by
  refine ⟨rfl, ?_, rfl, rfl, rfl⟩
  intro hproduct hsums
  simp only [Binary64.calculateSubtotal]
  rw [Binary64.foldl_exact items 0 hproduct, zero_add]
  intro k hk1 hk2
  rw [zero_add]
  exact hsums k hk1 hk2

/-- Witness of C1: a cart of one line 2 × 60 gives exactly 120. -/
theorem calculateSubtotal_double_sum_witness :
    Binary64.calculateSubtotal (some (singleLineCart 60 2)) = 120 := by
  have h := (calculateSubtotal_double_sum
    [{ variant_id := "v1", price := 60, quantity := 2 }]).2.1
    (by
      intro item hmem
      simp only [List.mem_singleton] at hmem
      subst hmem
      norm_num [Binary64.roundDouble_120])
    (by
      intro k hk1 hk2
      have hk : k = 1 := by
        simp only [List.length_singleton] at hk2
        omega
      subst hk
      norm_num [Binary64.roundDouble_120])
  simp only [singleLineCart]
  rw [h]
  norm_num

/-- C5: on the checkout page shipping is 0 exactly when the pre-discount subtotal is at
least 100 and is 10 exactly when it is below 100; changing the discount does not change
the shipping. -/
theorem shipping_threshold (s : CheckoutState) :
    (shipping s = 0 ↔ 100 ≤ subtotal s)
      ∧ (shipping s = 10 ↔ subtotal s < 100)
      ∧ ∀ d : ℚ, shipping { s with discount := d } = shipping s := by
  refine ⟨?_, ?_, ?_⟩
  · unfold shipping
    by_cases h : subtotal s ≥ 100
    · simp [h]
    · simp [h]
  · unfold shipping
    by_cases h : subtotal s ≥ 100
    · simp [h]
    · simp only [h, if_false, true_iff]
      exact not_le.mp h
  · intro d
    simp [shipping, subtotal]

/-- C6: on the checkout page the tax is (subtotal − discount) × 0.10, whatever the subtotal
and the discount; it coincides with the tax on the raw subtotal only when the discount
is 0. -/
theorem tax_on_discounted_base (s : CheckoutState) :
    tax s = (subtotal s - s.discount) * 0.10
      ∧ (tax s = subtotal s * 0.10 ↔ s.discount = 0) := by
  refine ⟨?_, ?_⟩
  · unfold tax
    norm_num
  · unfold tax
    constructor
    · intro h
      norm_num at h
      linarith
    · intro h
      rw [h]
      norm_num

/-- C7: the checkout total is subtotal − discount + shipping + tax, and two renderings with
the same cart and the same discount agree on subtotal, shipping, tax and total whatever
the rest of the page state is; a subtotal of 120 with no discount gives shipping 0,
tax 12 and total 132. -/
theorem total_deterministic (s₁ s₂ : CheckoutState)
    (hcart : s₁.cart = s₂.cart) (hdiscount : s₁.discount = s₂.discount) :
    total s₁ = subtotal s₁ - s₁.discount + shipping s₁ + tax s₁
      ∧ subtotal s₁ = subtotal s₂
      ∧ shipping s₁ = shipping s₂
      ∧ tax s₁ = tax s₂
      ∧ total s₁ = total s₂
      ∧ (subtotal s₁ = 120 → s₁.discount = 0 →
          shipping s₁ = 0 ∧ tax s₁ = 12 ∧ total s₁ = 132) := by
  have hsub : subtotal s₁ = subtotal s₂ := by simp [subtotal, hcart]
  have hship : shipping s₁ = shipping s₂ := by simp [shipping, hsub]
  have htax : tax s₁ = tax s₂ := by simp [tax, hsub, hdiscount]
  refine ⟨rfl, hsub, hship, htax, ?_, ?_⟩
  · simp [total, hsub, hship, htax, hdiscount]
  · intro h120 h0
    have hs : shipping s₁ = 0 := by
      unfold shipping
      rw [h120]
      norm_num
    have ht : tax s₁ = 12 := by
      unfold tax
      rw [h120, h0]
      norm_num
    refine ⟨hs, ht, ?_⟩
    unfold total
    rw [hs, ht, h120, h0]
    norm_num

/-- Witness of C7: a cart of 2 × 60 rendered with no discount in two page states that differ
in the coupon field and the loading flag. -/
theorem total_deterministic_witness :
    total (readyState (some (singleLineCart 60 2)) "")
        = total { readyState (some (singleLineCart 60 2)) "SAVE" with loading := true }
      ∧ shipping (readyState (some (singleLineCart 60 2)) "") = 0
      ∧ tax (readyState (some (singleLineCart 60 2)) "") = 12
      ∧ total (readyState (some (singleLineCart 60 2)) "") = 132 := by
  have h := total_deterministic (readyState (some (singleLineCart 60 2)) "")
    { readyState (some (singleLineCart 60 2)) "SAVE" with loading := true } rfl rfl
  have h120 : subtotal (readyState (some (singleLineCart 60 2)) "") = 120 := by
    norm_num [subtotal, calculateSubtotal, readyState, singleLineCart]
  have hex := h.2.2.2.2.2 h120 rfl
  exact ⟨h.2.2.2.2.1, hex.1, hex.2.1, hex.2.2⟩

/-! ## Coupon discount (C2, C3, C4) -/

/-- C2, as stated, fails: a 15% coupon whose `max_discount` is 0, applied to a subtotal of
200, stores the discount 30 and not min(30, 0) = 0. -/
theorem applyCoupon_zero_cap_not_min :
    (applyCoupon (validateAs { type := "percentage", value := 15, max_discount := some 0 })
        (readyState (some (singleLineCart 200 1)) "SAVE15")).1.discount = 30
      ∧ (applyCoupon (validateAs { type := "percentage", value := 15, max_discount := some 0 })
          (readyState (some (singleLineCart 200 1)) "SAVE15")).1.discount
        ≠ min (subtotal (readyState (some (singleLineCart 200 1)) "SAVE15") * 15 / 100) 0 := by
  rw [applyCoupon_discount_of_ok _ _
    { type := "percentage", value := 15, max_discount := some 0 } (by decide) rfl]
  norm_num [subtotal, calculateSubtotal, readyState, singleLineCart]

/-- C2, amended: for a percentage coupon the stored discount is
min(subtotal × value/100, max_discount) when the coupon carries a non-zero max_discount,
and subtotal × value/100 when it carries none or a max_discount of 0. -/
theorem applyCoupon_percentage_discount (validate : String → Except JsError CouponData)
    (s : CheckoutState) (data : CouponData)
    (hcode : s.couponCode ≠ "") (hv : validate s.couponCode = Except.ok data)
    (htype : data.type = "percentage") :
    (∀ cap, data.max_discount = some cap → cap ≠ 0 →
        (applyCoupon validate s).1.discount = min (subtotal s * data.value / 100) cap)
      ∧ (data.max_discount = none ∨ data.max_discount = some 0 →
        (applyCoupon validate s).1.discount = subtotal s * data.value / 100) := by
  rw [applyCoupon_discount_of_ok validate s data hcode hv]
  refine ⟨?_, ?_⟩
  · intro cap hcap hne
    simp only [htype, if_true, hcap, hne, ne_eq, not_false_eq_true, mul_div_assoc]
  · rintro (hnone | hzero)
    · simp only [htype, if_true, hnone, mul_div_assoc]
    · simp only [htype, if_true, hzero, ne_eq, not_true_eq_false, if_false, mul_div_assoc]

/-- Witness of C2: subtotal 200 with a 15% coupon capped at 20 stores the discount 20. -/
theorem applyCoupon_percentage_discount_witness :
    (applyCoupon (validateAs { type := "percentage", value := 15, max_discount := some 20 })
        (readyState (some (singleLineCart 200 1)) "SAVE15")).1.discount = 20 := by
  have h := (applyCoupon_percentage_discount
    (validateAs { type := "percentage", value := 15, max_discount := some 20 })
    (readyState (some (singleLineCart 200 1)) "SAVE15")
    { type := "percentage", value := 15, max_discount := some 20 }
    (by decide) rfl rfl).1 20 rfl (by norm_num)
  rw [h]
  norm_num [subtotal, calculateSubtotal, readyState, singleLineCart]

/-- C3, as stated, fails: a flat coupon of 20 applied to a subtotal of 10 stores the
discount 20 and not min(20, 10) = 10. -/
theorem applyCoupon_flat_not_clamped :
    (applyCoupon (validateAs { type := "flat", value := 20, max_discount := none })
        (readyState (some (singleLineCart 10 1)) "TAKE20")).1.discount = 20
      ∧ (applyCoupon (validateAs { type := "flat", value := 20, max_discount := none })
          (readyState (some (singleLineCart 10 1)) "TAKE20")).1.discount
        ≠ min 20 (subtotal (readyState (some (singleLineCart 10 1)) "TAKE20")) := by
  rw [applyCoupon_discount_of_ok _ _
    { type := "flat", value := 20, max_discount := none } (by decide) rfl]
  have hflat : ¬ ("flat" = "percentage") := by decide
  norm_num [subtotal, calculateSubtotal, readyState, singleLineCart, hflat]

/-- C3, amended: for a flat coupon the stored discount is the coupon value, for every value
and every subtotal; it is min(value, subtotal) whenever the value does not exceed the
subtotal. -/
theorem applyCoupon_flat_discount (validate : String → Except JsError CouponData)
    (s : CheckoutState) (data : CouponData)
    (hcode : s.couponCode ≠ "") (hv : validate s.couponCode = Except.ok data)
    (htype : data.type = "flat") :
    (applyCoupon validate s).1.discount = data.value
      ∧ (data.value ≤ subtotal s →
        (applyCoupon validate s).1.discount = min data.value (subtotal s)) := by
  have hflat : ¬ ("flat" = "percentage") := by decide
  have hd : (applyCoupon validate s).1.discount = data.value := by
    rw [applyCoupon_discount_of_ok validate s data hcode hv]
    simp only [htype, hflat, if_false]
  refine ⟨hd, ?_⟩
  intro hle
  rw [hd, min_eq_left hle]

/-- Witness of C3: subtotal 50 with a flat coupon of 20 stores the discount 20, which is
min(20, 50). -/
theorem applyCoupon_flat_discount_witness :
    (applyCoupon (validateAs { type := "flat", value := 20, max_discount := none })
        (readyState (some (singleLineCart 50 1)) "TAKE20")).1.discount = 20
      ∧ (applyCoupon (validateAs { type := "flat", value := 20, max_discount := none })
          (readyState (some (singleLineCart 50 1)) "TAKE20")).1.discount
        = min 20 (subtotal (readyState (some (singleLineCart 50 1)) "TAKE20")) := by
  have h := applyCoupon_flat_discount
    (validateAs { type := "flat", value := 20, max_discount := none })
    (readyState (some (singleLineCart 50 1)) "TAKE20")
    { type := "flat", value := 20, max_discount := none } (by decide) rfl rfl
  have h50 : subtotal (readyState (some (singleLineCart 50 1)) "TAKE20") = 50 := by
    norm_num [subtotal, calculateSubtotal, readyState, singleLineCart]
  refine ⟨h.1, h.2 ?_⟩
  rw [h50]
  norm_num

/-- C4, as stated, fails: a flat coupon of 75 on a subtotal of 50 stores the discount 75,
and a 150% coupon without cap on a subtotal of 100 stores the discount 150; in both cases
subtotal − discount is negative. -/
theorem applyCoupon_discount_exceeds_subtotal :
    (subtotal (readyState (some (singleLineCart 50 1)) "TAKE75")
        - (applyCoupon (validateAs { type := "flat", value := 75, max_discount := none })
            (readyState (some (singleLineCart 50 1)) "TAKE75")).1.discount = -25)
      ∧ (subtotal (readyState (some (singleLineCart 100 1)) "BIG")
        - (applyCoupon (validateAs { type := "percentage", value := 150, max_discount := none })
            (readyState (some (singleLineCart 100 1)) "BIG")).1.discount = -50) := by
  rw [applyCoupon_discount_of_ok _ _
    { type := "flat", value := 75, max_discount := none } (by decide) rfl,
    applyCoupon_discount_of_ok _ _
    { type := "percentage", value := 150, max_discount := none } (by decide) rfl]
  have hflat : ¬ ("flat" = "percentage") := by decide
  norm_num [subtotal, calculateSubtotal, readyState, singleLineCart, hflat]

/-- C4, amended: for a cart with non-negative prices and quantities and a validated coupon,
the stored discount does not exceed the subtotal (equivalently subtotal − discount is not
negative) exactly when the coupon is a percentage coupon and the subtotal is 0, or its
value is at most 100, or it carries a non-zero cap that is at most the subtotal, or the
coupon is not a percentage coupon and its value is at most the subtotal. -/
theorem applyCoupon_discount_le_subtotal_iff (validate : String → Except JsError CouponData)
    (s : CheckoutState) (data : CouponData)
    (hnonneg : Cart.NonNeg s.cart)
    (hcode : s.couponCode ≠ "") (hv : validate s.couponCode = Except.ok data) :
    ((applyCoupon validate s).1.discount ≤ subtotal s ↔
        if data.type = "percentage" then
          subtotal s = 0 ∨ data.value ≤ 100
            ∨ ∃ cap, data.max_discount = some cap ∧ cap ≠ 0 ∧ cap ≤ subtotal s
        else data.value ≤ subtotal s)
      ∧ (0 ≤ subtotal s - (applyCoupon validate s).1.discount ↔
        (applyCoupon validate s).1.discount ≤ subtotal s) := by
  have h0 : 0 ≤ subtotal s := calculateSubtotal_nonneg s.cart hnonneg
  refine ⟨?_, sub_nonneg⟩
  rw [applyCoupon_discount_of_ok validate s data hcode hv]
  by_cases htype : data.type = "percentage"
  · simp only [htype, if_true]
    cases hcap : data.max_discount with
    | none =>
      simp only [percent_le_self_iff _ _ h0]
      constructor
      · rintro (h | h)
        · exact Or.inl h
        · exact Or.inr (Or.inl h)
      · rintro (h | h | ⟨cap, hc, _⟩)
        · exact Or.inl h
        · exact Or.inr h
        · exact absurd hc (by simp)
    | some cap =>
      by_cases hne : cap = 0
      · simp only [hne, ne_eq, not_true_eq_false, if_false, percent_le_self_iff _ _ h0]
        constructor
        · rintro (h | h)
          · exact Or.inl h
          · exact Or.inr (Or.inl h)
        · rintro (h | h | ⟨c, hc, hc0, _⟩)
          · exact Or.inl h
          · exact Or.inr h
          · exact absurd (Option.some.inj hc).symm hc0
      · simp only [hne, ne_eq, not_false_eq_true, if_true, min_le_iff,
          percent_le_self_iff _ _ h0]
        constructor
        · rintro ((h | h) | h)
          · exact Or.inl h
          · exact Or.inr (Or.inl h)
          · exact Or.inr (Or.inr ⟨cap, rfl, hne, h⟩)
        · rintro (h | h | ⟨c, hc, _, hle⟩)
          · exact Or.inl (Or.inl h)
          · exact Or.inl (Or.inr h)
          · rw [Option.some.inj hc]
            exact Or.inr hle
  · simp only [htype, if_false]

/-- Witness of C4: a 50% coupon without cap on a cart of 2 × 40 stores a discount that does
not exceed the subtotal. -/
theorem applyCoupon_discount_le_subtotal_iff_witness :
    (applyCoupon (validateAs { type := "percentage", value := 50, max_discount := none })
        (readyState (some (singleLineCart 40 2)) "HALF")).1.discount
      ≤ subtotal (readyState (some (singleLineCart 40 2)) "HALF") := by
  have hnonneg : Cart.NonNeg (readyState (some (singleLineCart 40 2)) "HALF").cart := by
    intro c hc items hi item hmem
    simp only [readyState, singleLineCart, Option.some.injEq] at hc
    subst hc
    simp only [Option.some.injEq] at hi
    subst hi
    simp only [List.mem_singleton] at hmem
    subst hmem
    norm_num
  have h := (applyCoupon_discount_le_subtotal_iff
    (validateAs { type := "percentage", value := 50, max_discount := none })
    (readyState (some (singleLineCart 40 2)) "HALF")
    { type := "percentage", value := 50, max_discount := none }
    hnonneg (by decide) rfl).1
  rw [h]
  simp only [if_true]
  right
  left
  norm_num

/-! ## Checkout transaction (C8, C9, C10) -/

/-- C8: `handleSubmit` issues the order-confirm request `POST /orders/{order_id}/confirm`
if and only if the processor hooks are ready, `POST /checkout` succeeded, and
`confirmCardPayment` resolved with no error and a paymentIntent whose status is
'succeeded'; the request is then the one of the created order. In particular no confirm
request is made when `POST /checkout` fails or on any other processor result. -/
theorem handleSubmit_confirm_iff (env : CheckoutEnv) (s : CheckoutState) (url : String) :
    Effect.postOrderConfirm url ∈ (handleSubmit env s).2 ↔
      s.stripe = true ∧ s.elements = true ∧
        ∃ data result paymentIntent,
          env.postCheckout (checkoutBody s) = Except.ok data
            ∧ env.confirmCardPayment data.client_secret (billingDetails s) = Except.ok result
            ∧ result.error = none
            ∧ result.paymentIntent = some paymentIntent
            ∧ paymentIntent.status = "succeeded"
            ∧ url = "/orders/" ++ data.order_id ++ "/confirm" := by
  unfold handleSubmit
  by_cases hready : (!s.stripe || !s.elements) = true
  · rw [if_pos hready]
    have : ¬ (s.stripe = true ∧ s.elements = true) := by
      intro h
      simp [h.1, h.2] at hready
    constructor
    · intro h
      simp at h
    · intro h
      exact absurd ⟨h.1, h.2.1⟩ this
  · rw [if_neg hready]
    have hs : s.stripe = true ∧ s.elements = true := by
      cases h1 : s.stripe <;> cases h2 : s.elements <;> simp [h1, h2] at hready ⊢
    cases hc : env.postCheckout (checkoutBody s) with
    | error e => simp [handleSubmitCatch]
    | ok data =>
      cases hp : env.confirmCardPayment data.client_secret (billingDetails s) with
      | error e => simp [handleSubmitCatch, hp]
      | ok result =>
        cases herr : result.error with
        | some err => simp [hp, herr]
        | none =>
          cases hpi : result.paymentIntent with
          | none => simp [handleSubmitCatch, hp, herr, hpi]
          | some paymentIntent =>
            by_cases hst : paymentIntent.status = "succeeded"
            · cases hconf : env.postOrderConfirm ("/orders/" ++ data.order_id ++ "/confirm") with
              | error e =>
                simp [handleSubmitCatch, hp, herr, hpi, hst, hconf, hs.1, hs.2]
              | ok u =>
                simp [hp, herr, hpi, hst, hconf, hs.1, hs.2]
            · simp [hp, herr, hpi, hst]

/-- C9, as stated, fails: when the processor reports 'succeeded' and the order-confirm call
fails, the only thing shown to the user is the toast that a failed `POST /checkout` with
the same backend error shows: the generic 'Checkout failed' when the error carries no
detail, the bare detail otherwise. -/
theorem handleSubmit_confirm_failure_not_distinct :
    ((handleSubmit (envPayment "succeeded" (Except.error (backendError none)))
          (readyState (some (singleLineCart 200 1)) "")).2.filter Effect.isUserVisible
        = [Effect.toastError "Checkout failed"])
      ∧ ((handleSubmit (envCheckoutFails (backendError none))
          (readyState (some (singleLineCart 200 1)) "")).2.filter Effect.isUserVisible
        = [Effect.toastError "Checkout failed"])
      ∧ ((handleSubmit (envPayment "succeeded" (Except.error (backendError (some "Out of stock"))))
          (readyState (some (singleLineCart 200 1)) "")).2.filter Effect.isUserVisible
        = [Effect.toastError "Out of stock"])
      ∧ ((handleSubmit (envCheckoutFails (backendError (some "Out of stock")))
          (readyState (some (singleLineCart 200 1)) "")).2.filter Effect.isUserVisible
        = [Effect.toastError "Out of stock"]) := by
  refine ⟨?_, ?_, ?_, ?_⟩ <;> decide

/-- C9, amended: when the processor reports 'succeeded' and the following order-confirm call
fails, `handleSubmit` issues, after the three requests, exactly one error toast whose
message is the backend's detail when it is present and non-empty and 'Checkout failed'
otherwise, then resets `loading`; it shows no success toast and does not navigate. The
toast is the same one a failed `POST /checkout` with the same error produces. -/
theorem handleSubmit_confirm_failure (env env₀ : CheckoutEnv) (s : CheckoutState)
    (data : CheckoutData) (result : PaymentResult) (paymentIntent : PaymentIntent)
    (error : JsError)
    (hstripe : s.stripe = true) (helements : s.elements = true)
    (hcheckout : env.postCheckout (checkoutBody s) = Except.ok data)
    (hpay : env.confirmCardPayment data.client_secret (billingDetails s) = Except.ok result)
    (hnoerr : result.error = none)
    (hintent : result.paymentIntent = some paymentIntent)
    (hstatus : paymentIntent.status = "succeeded")
    (hconfirm : env.postOrderConfirm ("/orders/" ++ data.order_id ++ "/confirm")
      = Except.error error)
    (hfail₀ : env₀.postCheckout (checkoutBody s) = Except.error error) :
    (handleSubmit env s).2 =
        [Effect.preventDefault, Effect.setLoading true, Effect.postCheckout (checkoutBody s),
         Effect.confirmCardPayment data.client_secret (billingDetails s),
         Effect.postOrderConfirm ("/orders/" ++ data.order_id ++ "/confirm"),
         Effect.toastError (orElse error.responseDetail "Checkout failed"),
         Effect.setLoading false]
      ∧ (handleSubmit env₀ s).2 =
        [Effect.preventDefault, Effect.setLoading true, Effect.postCheckout (checkoutBody s),
         Effect.toastError (orElse error.responseDetail "Checkout failed"),
         Effect.setLoading false]
      ∧ (handleSubmit env s).2.filter Effect.isUserVisible
        = (handleSubmit env₀ s).2.filter Effect.isUserVisible
      ∧ (handleSubmit env s).1 = { s with loading := false } := by
  have h1 : handleSubmit env s =
      ({ s with loading := false },
        [Effect.preventDefault, Effect.setLoading true, Effect.postCheckout (checkoutBody s),
         Effect.confirmCardPayment data.client_secret (billingDetails s),
         Effect.postOrderConfirm ("/orders/" ++ data.order_id ++ "/confirm"),
         Effect.toastError (orElse error.responseDetail "Checkout failed"),
         Effect.setLoading false]) := by
    simp [handleSubmit, handleSubmitCatch, hstripe, helements, hcheckout, hpay, hnoerr,
      hintent, hstatus, hconfirm]
  have h2 : (handleSubmit env₀ s).2 =
      [Effect.preventDefault, Effect.setLoading true, Effect.postCheckout (checkoutBody s),
       Effect.toastError (orElse error.responseDetail "Checkout failed"),
       Effect.setLoading false] := by
    simp [handleSubmit, handleSubmitCatch, hstripe, helements, hfail₀]
  refine ⟨by rw [h1], h2, ?_, by rw [h1]⟩
  rw [h1, h2]
  simp [List.filter, Effect.isUserVisible]

/-- Witness of C9: the order 42 is created and paid, the confirm call is rejected with the
detail 'Order locked'; the user sees that bare detail, as after a rejected checkout. -/
theorem handleSubmit_confirm_failure_witness :
    (handleSubmit (envPayment "succeeded" (Except.error (backendError (some "Order locked"))))
        (readyState (some (singleLineCart 200 1)) "")).2.filter Effect.isUserVisible
      = (handleSubmit (envCheckoutFails (backendError (some "Order locked")))
        (readyState (some (singleLineCart 200 1)) "")).2.filter Effect.isUserVisible :=
  (handleSubmit_confirm_failure
    (envPayment "succeeded" (Except.error (backendError (some "Order locked"))))
    (envCheckoutFails (backendError (some "Order locked")))
    (readyState (some (singleLineCart 200 1)) "")
    sampleOrder { error := none, paymentIntent := some { status := "succeeded" } }
    { status := "succeeded" } (backendError (some "Order locked"))
    rfl rfl rfl rfl rfl rfl rfl rfl rfl).2.2.1

/-- C10: with the order created and a processor answer without error whose status is
'requires_action', `handleSubmit` issues the two requests and resets `loading`, and shows
nothing to the user: no toast and no navigation; the processor-error path on the same
order does show an error toast. -/
theorem handleSubmit_non_succeeded_silent :
    ((handleSubmit (envPayment "requires_action" (Except.ok ()))
          (readyState (some (singleLineCart 200 1)) "")).2
        = [Effect.preventDefault, Effect.setLoading true,
           Effect.postCheckout (checkoutBody (readyState (some (singleLineCart 200 1)) "")),
           Effect.confirmCardPayment "cs_42"
             (billingDetails (readyState (some (singleLineCart 200 1)) "")),
           Effect.setLoading false])
      ∧ ((handleSubmit (envPayment "requires_action" (Except.ok ()))
          (readyState (some (singleLineCart 200 1)) "")).2.filter Effect.isUserVisible = [])
      ∧ ((handleSubmit
            { postCheckout := fun _ => Except.ok sampleOrder
              confirmCardPayment := fun _ _ =>
                Except.ok { error := some { message := "Your card was declined." },
                            paymentIntent := none }
              postOrderConfirm := fun _ => Except.ok () }
          (readyState (some (singleLineCart 200 1)) "")).2.filter Effect.isUserVisible
        = [Effect.toastError "Your card was declined."]) := by
  refine ⟨?_, ?_, ?_⟩ <;> decide

/-! ## Checkout transaction, failure paths (C11, C12, C13, C14) -/

/-- C11: when the order is created and `confirmCardPayment` returns an error, the only thing
shown to the user is an error toast carrying exactly the processor's `error.message`;
the run issues no order-confirm request, does not navigate, and ends with `loading`
reset. -/
theorem handleSubmit_processor_error (env : CheckoutEnv) (s : CheckoutState)
    (data : CheckoutData) (result : PaymentResult) (error : StripeError)
    (hstripe : s.stripe = true) (helements : s.elements = true)
    (hcheckout : env.postCheckout (checkoutBody s) = Except.ok data)
    (hpay : env.confirmCardPayment data.client_secret (billingDetails s) = Except.ok result)
    (herror : result.error = some error) :
    (handleSubmit env s).2 =
        [Effect.preventDefault, Effect.setLoading true, Effect.postCheckout (checkoutBody s),
         Effect.confirmCardPayment data.client_secret (billingDetails s),
         Effect.toastError error.message, Effect.setLoading false, Effect.setLoading false]
      ∧ (handleSubmit env s).2.filter Effect.isUserVisible = [Effect.toastError error.message]
      ∧ (∀ path, Effect.navigate path ∉ (handleSubmit env s).2)
      ∧ (handleSubmit env s).1 = { s with loading := false } := by
  have h : handleSubmit env s =
      ({ s with loading := false },
        [Effect.preventDefault, Effect.setLoading true, Effect.postCheckout (checkoutBody s),
         Effect.confirmCardPayment data.client_secret (billingDetails s),
         Effect.toastError error.message, Effect.setLoading false,
         Effect.setLoading false]) := by
    simp [handleSubmit, hstripe, helements, hcheckout, hpay, herror]
  rw [h]
  refine ⟨rfl, ?_, ?_, rfl⟩
  · simp [List.filter, Effect.isUserVisible]
  · intro path
    simp

/-- Witness of C11: the processor declines the card of order 42. -/
theorem handleSubmit_processor_error_witness :
    (handleSubmit
        { postCheckout := fun _ => Except.ok sampleOrder
          confirmCardPayment := fun _ _ =>
            Except.ok { error := some { message := "Your card was declined." },
                        paymentIntent := none }
          postOrderConfirm := fun _ => Except.ok () }
        (readyState (some (singleLineCart 200 1)) "")).2.filter Effect.isUserVisible
      = [Effect.toastError "Your card was declined."] :=
  (handleSubmit_processor_error
    { postCheckout := fun _ => Except.ok sampleOrder
      confirmCardPayment := fun _ _ =>
        Except.ok { error := some { message := "Your card was declined." },
                    paymentIntent := none }
      postOrderConfirm := fun _ => Except.ok () }
    (readyState (some (singleLineCart 200 1)) "")
    sampleOrder
    { error := some { message := "Your card was declined." }, paymentIntent := none }
    { message := "Your card was declined." } rfl rfl rfl rfl rfl).2.1

/-- C12: when `POST /checkout` is rejected or fails, the run of `handleSubmit` contains no
call to `confirmCardPayment` and no order-confirm request. -/
theorem handleSubmit_checkout_rejected (env : CheckoutEnv) (s : CheckoutState)
    (error : JsError)
    (hrejected : env.postCheckout (checkoutBody s) = Except.error error) :
    (∀ secret billing, Effect.confirmCardPayment secret billing ∉ (handleSubmit env s).2)
      ∧ (∀ url, Effect.postOrderConfirm url ∉ (handleSubmit env s).2) := by
  unfold handleSubmit
  by_cases hready : (!s.stripe || !s.elements) = true
  · rw [if_pos hready]
    refine ⟨?_, ?_⟩
    · intro secret billing
      simp
    · intro url
      simp
  · rw [if_neg hready]
    simp only [hrejected, handleSubmitCatch]
    refine ⟨?_, ?_⟩
    · intro secret billing
      simp
    · intro url
      simp

/-- Witness of C12: the backend rejects the checkout with 'Out of stock'; the run is the
request, the error toast and the reset of `loading`. -/
theorem handleSubmit_checkout_rejected_witness :
    (∀ secret billing, Effect.confirmCardPayment secret billing ∉
        (handleSubmit (envCheckoutFails (backendError (some "Out of stock")))
          (readyState (some (singleLineCart 200 1)) "")).2)
      ∧ (∀ url, Effect.postOrderConfirm url ∉
        (handleSubmit (envCheckoutFails (backendError (some "Out of stock")))
          (readyState (some (singleLineCart 200 1)) "")).2) :=
  handleSubmit_checkout_rejected (envCheckoutFails (backendError (some "Out of stock")))
    (readyState (some (singleLineCart 200 1)) "") (backendError (some "Out of stock")) rfl

/-- C13: on every path of `handleSubmit`, in particular on every path that does not end with
the order confirmed, the cart, the coupon code, the discount and the shipping address held
by the page are the ones it started with; only `loading` may differ. -/
theorem handleSubmit_keeps_inputs (env : CheckoutEnv) (s : CheckoutState) :
    (handleSubmit env s).1.cart = s.cart
      ∧ (handleSubmit env s).1.couponCode = s.couponCode
      ∧ (handleSubmit env s).1.discount = s.discount
      ∧ (handleSubmit env s).1.shippingAddress = s.shippingAddress
      ∧ ((handleSubmit env s).1 = s ∨ (handleSubmit env s).1 = { s with loading := false }) := by
  have h : (handleSubmit env s).1 = s ∨ (handleSubmit env s).1 = { s with loading := false } := by
    unfold handleSubmit
    by_cases hready : (!s.stripe || !s.elements) = true
    · rw [if_pos hready]
      exact Or.inl rfl
    · rw [if_neg hready]
      right
      cases hc : env.postCheckout (checkoutBody s) with
      | error e => simp [handleSubmitCatch]
      | ok data =>
        cases hp : env.confirmCardPayment data.client_secret (billingDetails s) with
        | error e => simp [handleSubmitCatch, hp]
        | ok result =>
          cases herr : result.error with
          | some err => simp [hp, herr]
          | none =>
            cases hpi : result.paymentIntent with
            | none => simp [handleSubmitCatch, hp, herr, hpi]
            | some paymentIntent =>
              by_cases hst : paymentIntent.status = "succeeded"
              · cases hconf :
                    env.postOrderConfirm ("/orders/" ++ data.order_id ++ "/confirm") with
                | error e => simp [handleSubmitCatch, hp, herr, hpi, hst, hconf]
                | ok u => simp [hp, herr, hpi, hst, hconf]
              · simp [hp, herr, hpi, hst]
  refine ⟨?_, ?_, ?_, ?_, h⟩ <;> rcases h with h | h <;> rw [h]

/-- C14, as stated, fails: with the processor hooks ready, the address filled in and no cart
loaded yet, `handleSubmit` issues `POST /checkout`. -/
theorem handleSubmit_posts_without_cart :
    (readyState none "").cart = none
      ∧ Effect.postCheckout (checkoutBody (readyState none ""))
        ∈ (handleSubmit (envPayment "succeeded" (Except.ok ())) (readyState none "")).2 := by
  refine ⟨rfl, ?_⟩
  decide

/-- C14, amended: `handleSubmit` issues `POST /checkout` exactly when the processor hooks
`stripe` and `elements` are both available, whatever the held cart is; when one of them is
missing its run is `preventDefault` alone, with no backend call. -/
theorem handleSubmit_posts_iff_hooks (env : CheckoutEnv) (s : CheckoutState)
    (body : CheckoutBody) :
    (Effect.postCheckout body ∈ (handleSubmit env s).2 ↔
        s.stripe = true ∧ s.elements = true ∧ body = checkoutBody s)
      ∧ (¬ (s.stripe = true ∧ s.elements = true) →
        (handleSubmit env s).2 = [Effect.preventDefault])
      ∧ ∀ cart, (handleSubmit env { s with cart := cart }).2 = (handleSubmit env s).2 := by
  refine ⟨?_, ?_, ?_⟩
  · unfold handleSubmit
    by_cases hready : (!s.stripe || !s.elements) = true
    · rw [if_pos hready]
      have : ¬ (s.stripe = true ∧ s.elements = true) := by
        intro h
        simp [h.1, h.2] at hready
      constructor
      · intro h
        simp at h
      · intro h
        exact absurd ⟨h.1, h.2.1⟩ this
    · rw [if_neg hready]
      have hs : s.stripe = true ∧ s.elements = true := by
        cases h1 : s.stripe <;> cases h2 : s.elements <;> simp [h1, h2] at hready ⊢
      cases hc : env.postCheckout (checkoutBody s) with
      | error e => simp [handleSubmitCatch, hs.1, hs.2]
      | ok data =>
        cases hp : env.confirmCardPayment data.client_secret (billingDetails s) with
        | error e => simp [handleSubmitCatch, hp, hs.1, hs.2]
        | ok result =>
          cases herr : result.error with
          | some err => simp [hp, herr, hs.1, hs.2]
          | none =>
            cases hpi : result.paymentIntent with
            | none => simp [handleSubmitCatch, hp, herr, hpi, hs.1, hs.2]
            | some paymentIntent =>
              by_cases hst : paymentIntent.status = "succeeded"
              · cases hconf :
                    env.postOrderConfirm ("/orders/" ++ data.order_id ++ "/confirm") with
                | error e =>
                  simp [handleSubmitCatch, hp, herr, hpi, hst, hconf, hs.1, hs.2]
                | ok u => simp [hp, herr, hpi, hst, hconf, hs.1, hs.2]
              · simp [hp, herr, hpi, hst, hs.1, hs.2]
  · intro hnot
    have hready : (!s.stripe || !s.elements) = true := by
      cases h1 : s.stripe <;> cases h2 : s.elements <;> simp [h1, h2] at hnot ⊢
    simp [handleSubmit, hready]
  · intro cart
    have hb : checkoutBody { s with cart := cart } = checkoutBody s := rfl
    have hd : billingDetails { s with cart := cart } = billingDetails s := rfl
    unfold handleSubmit
    rw [hb, hd]
    by_cases hready : (!s.stripe || !s.elements) = true
    · simp only [hready, if_true]
    · simp only [hready]
      cases hc : env.postCheckout (checkoutBody s) with
      | error e => simp [handleSubmitCatch]
      | ok data =>
        cases hp : env.confirmCardPayment data.client_secret (billingDetails s) with
        | error e => simp [handleSubmitCatch, hp]
        | ok result =>
          cases herr : result.error with
          | some err => simp [hp, herr]
          | none =>
            cases hpi : result.paymentIntent with
            | none => simp [handleSubmitCatch, hp, herr, hpi]
            | some paymentIntent =>
              by_cases hst : paymentIntent.status = "succeeded"
              · cases hconf :
                    env.postOrderConfirm ("/orders/" ++ data.order_id ++ "/confirm") with
                | error e => simp [handleSubmitCatch, hp, herr, hpi, hst, hconf]
                | ok u => simp [hp, herr, hpi, hst, hconf]
              · simp [hp, herr, hpi, hst]

/-- Witness of C14: while `useStripe()` is still null the submission makes no request. -/
theorem handleSubmit_posts_iff_hooks_witness :
    (handleSubmit (envPayment "succeeded" (Except.ok ()))
        { readyState none "" with stripe := false }).2 = [Effect.preventDefault] :=
  (handleSubmit_posts_iff_hooks (envPayment "succeeded" (Except.ok ()))
    { readyState none "" with stripe := false }
    (checkoutBody (readyState none ""))).2.1 (by decide)

/-! ## Reachable pages of the checkout (C15, C16) -/

/-- C15: when `GET /cart` answers with a cart whose items are absent or empty, `fetchCart`
shows 'Your cart is empty', navigates to /cart and leaves the page state as it was; and in
every reachable page the held cart is unset or has at least one item. -/
theorem fetchCart_never_stores_empty (p : Page) (hreach : Reachable p)
    (data : Cart) (s : CheckoutState)
    (hempty : data.items = none ∨ data.items = some []) :
    fetchCart (Except.ok data) s
        = (s, [Effect.getCart, Effect.toastError "Your cart is empty", Effect.navigate "/cart"])
      ∧ CartLoadedOrUnset p.state.cart := by
  refine ⟨?_, ?_⟩
  · rcases hempty with h | h
    · simp only [fetchCart, h]
    · simp only [fetchCart, h, List.length_nil, if_true]
  · exact reachable_induction (fun q => CartLoadedOrUnset q.state.cart) (Or.inl rfl)
      pageStep_cartLoadedOrUnset p hreach

/-- Witness of C15: the page after an empty answer followed by a cart of 2 × 60. -/
theorem fetchCart_never_stores_empty_witness :
    fetchCart (Except.ok { items := some [] }) initialState
        = (initialState,
            [Effect.getCart, Effect.toastError "Your cart is empty", Effect.navigate "/cart"])
      ∧ CartLoadedOrUnset
        (run [PageEvent.fetchCartSettled (Except.ok { items := some [] }),
              PageEvent.fetchCartSettled (Except.ok (singleLineCart 60 2))]).state.cart :=
  fetchCart_never_stores_empty
    (run [PageEvent.fetchCartSettled (Except.ok { items := some [] }),
          PageEvent.fetchCartSettled (Except.ok (singleLineCart 60 2))])
    ⟨_, rfl⟩ { items := some [] } initialState (Or.inr rfl)

/-- C16: in every reachable page at most one run of `handleSubmit` is suspended; while one
is, `loading` is set, and whenever `loading` is set a submission of the form does nothing:
no `POST /checkout` and no change of the page. A submission issues at most one
`POST /checkout`. -/
theorem placeOrder_blocked_while_loading (p : Page) (hreach : Reachable p) :
    p.inflight.length ≤ 1
      ∧ (p.inflight ≠ [] → p.state.loading = true)
      ∧ (p.state.loading = true → pageStep p PageEvent.placeOrder = (p, []))
      ∧ ((pageStep p PageEvent.placeOrder).2.filter Effect.isPostCheckout).length ≤ 1
      ∧ (pageStep p PageEvent.placeOrder).1.inflight.length ≤ 1 := by
  have hinv : ∀ q, Reachable q → SingleAttempt q :=
    reachable_induction SingleAttempt (Or.inl rfl) pageStep_singleAttempt
  have hlen : ∀ q, SingleAttempt q → q.inflight.length ≤ 1 := by
    intro q hq
    rcases hq with h | ⟨_, x, hx⟩
    · simp [h]
    · simp [hx]
  refine ⟨hlen p (hinv p hreach), ?_, ?_, ?_, ?_⟩
  · intro hne
    rcases hinv p hreach with h | ⟨hl, _⟩
    · exact absurd h hne
    · exact hl
  · intro hl
    simp [pageStep, placeOrderDisabled, hl]
  · simp only [pageStep, submitStart]
    split
    · simp
    · split
      · simp [List.filter, Effect.isPostCheckout]
      · simp [List.filter, Effect.isPostCheckout]
  · exact hlen _ (pageStep_singleAttempt p PageEvent.placeOrder (hinv p hreach))

/-- Witness of C16: after the hooks are ready, the address is filled in and the form is
submitted, `loading` is set and a second submission does nothing. -/
theorem placeOrder_blocked_while_loading_witness :
    (run [PageEvent.hooks true true, PageEvent.setShippingAddress sampleAddress,
          PageEvent.placeOrder]).state.loading = true
      ∧ pageStep
          (run [PageEvent.hooks true true, PageEvent.setShippingAddress sampleAddress,
                PageEvent.placeOrder]) PageEvent.placeOrder
        = (run [PageEvent.hooks true true, PageEvent.setShippingAddress sampleAddress,
                PageEvent.placeOrder], []) := by
  have h := placeOrder_blocked_while_loading
    (run [PageEvent.hooks true true, PageEvent.setShippingAddress sampleAddress,
          PageEvent.placeOrder]) ⟨_, rfl⟩
  have hne : (run [PageEvent.hooks true true, PageEvent.setShippingAddress sampleAddress,
      PageEvent.placeOrder]).inflight ≠ [] := by
    have hfilled : requiredFieldsFilled sampleAddress = true := by decide
    simp [run, runFrom, pageStep, placeOrderDisabled, submitStart, initialPage, initialState,
      hfilled]
  exact ⟨h.2.1 hne, h.2.2.1 (h.2.1 hne)⟩

/-! ## Coupon validation (C17, C18, C19) -/

/-- C17: `applyCoupon` called with an empty coupon code sets the discount to 0 whatever it
was, changes nothing else, issues no validation request and shows no error: its only
effect is the information toast 'Coupon code cleared'. -/
theorem applyCoupon_empty_code (validate : String → Except JsError CouponData)
    (s : CheckoutState) (hcode : s.couponCode = "") :
    (applyCoupon validate s).1 = { s with discount := 0 }
      ∧ (applyCoupon validate s).2 = [Effect.toastInfo "Coupon code cleared"]
      ∧ (∀ code, Effect.getCouponValidate code ∉ (applyCoupon validate s).2)
      ∧ (∀ msg, Effect.toastError msg ∉ (applyCoupon validate s).2) := by
  have h : applyCoupon validate s
      = ({ s with discount := 0 }, [Effect.toastInfo "Coupon code cleared"]) := by
    simp only [applyCoupon, hcode, if_true]
  rw [h]
  refine ⟨rfl, rfl, ?_, ?_⟩
  · intro code
    simp
  · intro msg
    simp

/-- Witness of C17: a page holding the discount 30 whose coupon field has been emptied. -/
theorem applyCoupon_empty_code_witness :
    (applyCoupon (validateAs { type := "flat", value := 20, max_discount := none })
        { readyState (some (singleLineCart 200 1)) "" with discount := 30 }).1.discount = 0
      ∧ (applyCoupon (validateAs { type := "flat", value := 20, max_discount := none })
        { readyState (some (singleLineCart 200 1)) "" with discount := 30 }).2
        = [Effect.toastInfo "Coupon code cleared"] := by
  have h := applyCoupon_empty_code
    (validateAs { type := "flat", value := 20, max_discount := none })
    { readyState (some (singleLineCart 200 1)) "" with discount := 30 } rfl
  exact ⟨by rw [h.1], h.2.1⟩

/-- C18, as stated, fails: a validated flat coupon of 5 whose `min_order_value` is 100 is
applied to a subtotal of 10: the discount 5 is stored and the success toast is shown. -/
theorem applyCoupon_below_minimum_applied :
    subtotal (readyState (some (singleLineCart 10 1)) "MIN100") = 10
      ∧ (applyCoupon
          (validateAs { type := "flat", value := 5, max_discount := none,
                        min_order_value := some 100 })
          (readyState (some (singleLineCart 10 1)) "MIN100")).1.discount = 5
      ∧ (applyCoupon
          (validateAs { type := "flat", value := 5, max_discount := none,
                        min_order_value := some 100 })
          (readyState (some (singleLineCart 10 1)) "MIN100")).2
        = [Effect.getCouponValidate "MIN100",
           Effect.toastSuccess "Coupon \"MIN100\" applied!"] := by
  refine ⟨?_, ?_, ?_⟩
  · norm_num [subtotal, calculateSubtotal, readyState, singleLineCart]
  · rw [applyCoupon_discount_of_ok _ _
      { type := "flat", value := 5, max_discount := none, min_order_value := some 100 }
      (by decide) rfl]
    have hflat : ¬ ("flat" = "percentage") := by decide
    simp only [hflat, if_false]
  · decide

/-- C18, amended: `applyCoupon` never compares the subtotal with the coupon's
`min_order_value`. When the validation request succeeds the coupon is applied and the
success toast shown, with the same discount whatever `min_order_value` is; the coupon is
rejected only when the validation request fails, and then the discount is 0 and the error
toast carries the backend's detail, or 'Invalid coupon code' when there is none. -/
theorem applyCoupon_ignores_min_order_value (validate : String → Except JsError CouponData)
    (s : CheckoutState) (hcode : s.couponCode ≠ "") :
    (∀ data, validate s.couponCode = Except.ok data →
        (applyCoupon validate s).2
            = [Effect.getCouponValidate s.couponCode,
               Effect.toastSuccess ("Coupon \"" ++ s.couponCode ++ "\" applied!")]
          ∧ ∀ minimum,
            applyCoupon (validateAs { data with min_order_value := minimum }) s
              = applyCoupon validate s)
      ∧ (∀ error, validate s.couponCode = Except.error error →
        (applyCoupon validate s).1 = { s with discount := 0 }
          ∧ (applyCoupon validate s).2
            = [Effect.getCouponValidate s.couponCode,
               Effect.toastError (orElse error.responseDetail "Invalid coupon code")]) := by
  refine ⟨?_, ?_⟩
  · intro data hv
    refine ⟨?_, ?_⟩
    · simp only [applyCoupon, hcode, if_false, hv]
    · intro minimum
      simp only [applyCoupon, hcode, if_false, hv, validateAs]
  · intro error hv
    simp only [applyCoupon, hcode, if_false, hv, and_self]

/-- Witness of C18: the coupon of 5 is applied to the subtotal 10 alike with a
`min_order_value` of 100 and with none. -/
theorem applyCoupon_ignores_min_order_value_witness :
    applyCoupon
        (validateAs { type := "flat", value := 5, max_discount := none,
                      min_order_value := some 100 })
        (readyState (some (singleLineCart 10 1)) "MIN100")
      = applyCoupon (validateAs { type := "flat", value := 5, max_discount := none })
        (readyState (some (singleLineCart 10 1)) "MIN100") :=
  ((applyCoupon_ignores_min_order_value
    (validateAs { type := "flat", value := 5, max_discount := none })
    (readyState (some (singleLineCart 10 1)) "MIN100") (by decide)).1
    { type := "flat", value := 5, max_discount := none } rfl).2 (some 100)

/-- C19, as stated, fails: a flat coupon of 20 applied before the cart has loaded leaves the
discount 20 in place when the cart load completes, and a 15% coupon applied before the
cart has loaded leaves the discount 0 in place when a cart of subtotal 200 loads, where
`applyCoupon` on the loaded cart computes 30. -/
theorem discount_stale_after_cart_load :
    (run [PageEvent.setCouponCode "TAKE20", PageEvent.applyCouponClicked,
          PageEvent.couponSettled 0
            (Except.ok { type := "flat", value := 20, max_discount := none }),
          PageEvent.fetchCartSettled (Except.ok (singleLineCart 10 1))]).state.discount = 20
      ∧ (run [PageEvent.setCouponCode "SAVE15", PageEvent.applyCouponClicked,
          PageEvent.couponSettled 0
            (Except.ok { type := "percentage", value := 15, max_discount := none }),
          PageEvent.fetchCartSettled (Except.ok (singleLineCart 200 1))]).state.discount = 0
      ∧ (applyCoupon (validateAs { type := "percentage", value := 15, max_discount := none })
          (run [PageEvent.setCouponCode "SAVE15", PageEvent.applyCouponClicked,
            PageEvent.couponSettled 0
              (Except.ok { type := "percentage", value := 15, max_discount := none }),
            PageEvent.fetchCartSettled
              (Except.ok (singleLineCart 200 1))]).state).1.discount = 30 := by
  have hflat : ¬ ("flat" = "percentage") := by decide
  have h1 : ¬ ("TAKE20" = "") := by decide
  have h2 : ¬ ("SAVE15" = "") := by decide
  refine ⟨?_, ?_, ?_⟩
  · norm_num [run, runFrom, pageStep, applyCouponStart, settleCoupon, applyCoupon, fetchCart,
      initialPage, initialState, singleLineCart, calculateSubtotal, hflat, h1]
  · norm_num [run, runFrom, pageStep, applyCouponStart, settleCoupon, applyCoupon, fetchCart,
      initialPage, initialState, singleLineCart, calculateSubtotal, h2]
  · norm_num [run, runFrom, pageStep, applyCouponStart, settleCoupon, applyCoupon, fetchCart,
      validateAs, initialPage, initialState, singleLineCart, calculateSubtotal, h2]

/-- C19, amended: the held discount is written only when a coupon application completes,
that is when Apply is clicked with an empty code or when a validation request settles;
every other step of the checkout page, in particular the cart load completing, leaves it
as it is, so a discount stored before the cart changed is neither invalidated nor
recomputed. -/
theorem discount_changed_only_by_applyCoupon (p : Page) (e : PageEvent)
    (hclick : e ≠ PageEvent.applyCouponClicked)
    (hsettle : ∀ i response, e ≠ PageEvent.couponSettled i response) :
    (pageStep p e).1.state.discount = p.state.discount
      ∧ ∀ response, (fetchCart response p.state).1.discount = p.state.discount := by
  have hfetch : ∀ response, (fetchCart response p.state).1.discount = p.state.discount := by
    intro response
    rcases fetchCart_frame response p.state with h | ⟨data, _, h, _⟩ <;> rw [h]
  refine ⟨?_, hfetch⟩
  cases e with
  | hooks stripe elements => rfl
  | fetchCartSettled response => exact hfetch response
  | setCouponCode code => rfl
  | setShippingAddress address => rfl
  | applyCouponClicked => exact absurd rfl hclick
  | couponSettled i response => exact absurd rfl (hsettle i response)
  | placeOrder =>
    simp only [pageStep, submitStart]
    split
    · rfl
    · split
      · rfl
      · rfl
  | checkoutSettled i response =>
    simp only [pageStep, settleCheckout, catchAttempt, finishAttempt]
    split
    · split
      · rfl
      · rfl
    · rfl
  | paymentSettled i response =>
    simp only [pageStep, settlePayment, catchAttempt, finishAttempt]
    split
    · split
      · rfl
      · split
        · rfl
        · split
          · rfl
          · split
            · rfl
            · rfl
    · rfl
  | confirmSettled i response =>
    simp only [pageStep, settleConfirm, catchAttempt, finishAttempt]
    split
    · split
      · rfl
      · rfl
    · rfl

/-- Witness of C19: a page holding the discount 20 and no cart; a cart of 1 × 10 loads. -/
theorem discount_changed_only_by_applyCoupon_witness :
    (pageStep { state := { readyState none "TAKE20" with discount := 20 }, inflight := [] }
        (PageEvent.fetchCartSettled (Except.ok (singleLineCart 10 1)))).1.state.discount
      = 20 :=
  (discount_changed_only_by_applyCoupon
    { state := { readyState none "TAKE20" with discount := 20 }, inflight := [] }
    (PageEvent.fetchCartSettled (Except.ok (singleLineCart 10 1)))
    (fun h => PageEvent.noConfusion h) (fun _ _ h => PageEvent.noConfusion h)).1

/-! ## Cart page mutations (C20) -/

namespace CartPage

/-- C20, as stated, fails: when the backend rejects the quantity update, `updateQuantity`
makes no `GET /cart` request; and when the update is accepted but the refetch fails, the
cart held afterwards is the one held before, and 'Cart updated' is shown all the same. -/
theorem updateQuantity_without_refetch :
    CartEffect.getCart ∉ (updateQuantity envMutationFails "v1" 3 shownState).2
      ∧ (updateQuantity envMutationFails "v1" 3 shownState).2
        = [CartEffect.putCartItem "v1" 3, CartEffect.toastError "Failed to update cart"]
      ∧ (updateQuantity envRefetchFails "v1" 3 shownState).1.cart = shownState.cart
      ∧ CartEffect.toastSuccess "Cart updated"
        ∈ (updateQuantity envRefetchFails "v1" 3 shownState).2 := by
  refine ⟨?_, ?_, ?_, ?_⟩
  · simp [updateQuantity, envMutationFails]
  · simp [updateQuantity, envMutationFails]
  · simp [updateQuantity, fetchCart, envRefetchFails]
  · simp [updateQuantity, fetchCart, envRefetchFails]

/-- C20, amended: `updateQuantity` and `removeItem` make a `GET /cart` request exactly when
their mutation request succeeded, and then right after it; the cart held afterwards is the
refetched answer when both requests succeeded and the cart held before otherwise, so it is
never a cart patched by the client. -/
theorem mutation_refetches_when_accepted (env : CartEnv) (variantId : String) (quantity : ℚ)
    (s : CartState) :
    (CartEffect.getCart ∈ (updateQuantity env variantId quantity s).2
        ↔ ∃ u, env.putCartItem variantId quantity = Except.ok u)
      ∧ (CartEffect.getCart ∈ (removeItem env variantId s).2
        ↔ ∃ u, env.deleteCartItem variantId = Except.ok u)
      ∧ ((updateQuantity env variantId quantity s).2.take 2
          = [CartEffect.putCartItem variantId quantity, CartEffect.getCart]
        ∨ (updateQuantity env variantId quantity s).2
          = [CartEffect.putCartItem variantId quantity,
             CartEffect.toastError "Failed to update cart"])
      ∧ ((removeItem env variantId s).2.take 2
          = [CartEffect.deleteCartItem variantId, CartEffect.getCart]
        ∨ (removeItem env variantId s).2
          = [CartEffect.deleteCartItem variantId,
             CartEffect.toastError "Failed to remove item"])
      ∧ (updateQuantity env variantId quantity s).1.cart
        = (match env.putCartItem variantId quantity, env.getCart with
          | Except.ok _, Except.ok data => some data
          | _, _ => s.cart)
      ∧ (removeItem env variantId s).1.cart
        = (match env.deleteCartItem variantId, env.getCart with
          | Except.ok _, Except.ok data => some data
          | _, _ => s.cart) := by
  refine ⟨?_, ?_, ?_, ?_, ?_, ?_⟩
  · unfold updateQuantity fetchCart
    cases hp : env.putCartItem variantId quantity with
    | error e => simp
    | ok u => cases hg : env.getCart <;> simp
  · unfold removeItem fetchCart
    cases hd : env.deleteCartItem variantId with
    | error e => simp
    | ok u => cases hg : env.getCart <;> simp
  · unfold updateQuantity fetchCart
    cases hp : env.putCartItem variantId quantity with
    | error e => simp
    | ok u => cases hg : env.getCart <;> simp
  · unfold removeItem fetchCart
    cases hd : env.deleteCartItem variantId with
    | error e => simp
    | ok u => cases hg : env.getCart <;> simp
  · unfold updateQuantity fetchCart
    cases hp : env.putCartItem variantId quantity with
    | error e => simp
    | ok u => cases hg : env.getCart <;> simp
  · unfold removeItem fetchCart
    cases hd : env.deleteCartItem variantId with
    | error e => simp
    | ok u => cases hg : env.getCart <;> simp

end CartPage

/-! ## Failure reporting (C21, C22) -/

/-- C21, as stated, fails: when the backend rejects `POST /checkout` with 'Out of stock',
the run of `handleSubmit` is the request, the error toast and the reset of `loading`; it
contains no `GET /cart`, and the held cart is the one held before. -/
theorem handleSubmit_rejected_no_refetch :
    (handleSubmit (envCheckoutFails (backendError (some "Out of stock")))
        (readyState (some (singleLineCart 200 1)) "")).2
      = [Effect.preventDefault, Effect.setLoading true,
         Effect.postCheckout (checkoutBody (readyState (some (singleLineCart 200 1)) "")),
         Effect.toastError "Out of stock", Effect.setLoading false]
      ∧ Effect.getCart ∉ (handleSubmit (envCheckoutFails (backendError (some "Out of stock")))
        (readyState (some (singleLineCart 200 1)) "")).2
      ∧ (handleSubmit (envCheckoutFails (backendError (some "Out of stock")))
        (readyState (some (singleLineCart 200 1)) "")).1.cart
        = some (singleLineCart 200 1) := by
  refine ⟨?_, ?_, ?_⟩
  · decide
  · decide
  · rfl

/-- C21, amended: when `POST /checkout` is rejected, the checkout page shows the backend's
detail, or 'Checkout failed' when there is none, and resets `loading`; it makes no
`GET /cart` request and keeps the cart it held. -/
theorem handleSubmit_rejected_keeps_cart (env : CheckoutEnv) (s : CheckoutState)
    (error : JsError)
    (hstripe : s.stripe = true) (helements : s.elements = true)
    (hrejected : env.postCheckout (checkoutBody s) = Except.error error) :
    (handleSubmit env s).2
        = [Effect.preventDefault, Effect.setLoading true, Effect.postCheckout (checkoutBody s),
           Effect.toastError (orElse error.responseDetail "Checkout failed"),
           Effect.setLoading false]
      ∧ Effect.getCart ∉ (handleSubmit env s).2
      ∧ (handleSubmit env s).1 = { s with loading := false } := by
  have h : handleSubmit env s =
      ({ s with loading := false },
        [Effect.preventDefault, Effect.setLoading true, Effect.postCheckout (checkoutBody s),
         Effect.toastError (orElse error.responseDetail "Checkout failed"),
         Effect.setLoading false]) := by
    simp [handleSubmit, handleSubmitCatch, hstripe, helements, hrejected]
  rw [h]
  refine ⟨rfl, ?_, rfl⟩
  simp

/-- Witness of C21: the checkout of a cart of 1 × 200 is rejected without detail. -/
theorem handleSubmit_rejected_keeps_cart_witness :
    Effect.getCart ∉ (handleSubmit (envCheckoutFails (backendError none))
        (readyState (some (singleLineCart 200 1)) "")).2
      ∧ (handleSubmit (envCheckoutFails (backendError none))
        (readyState (some (singleLineCart 200 1)) "")).1
        = { readyState (some (singleLineCart 200 1)) "" with loading := false } :=
  (handleSubmit_rejected_keeps_cart (envCheckoutFails (backendError none))
    (readyState (some (singleLineCart 200 1)) "") (backendError none) rfl rfl rfl).2

/-- C22, as stated, fails: the backend rejects a quantity update with the detail
'Insufficient inventory', and a removal; the cart page shows 'Failed to update cart' and
'Failed to remove item'. -/
theorem cart_mutation_failure_generic :
    (CartPage.updateQuantity CartPage.envMutationFails "v1" 3 CartPage.shownState).2
      = [CartPage.CartEffect.putCartItem "v1" 3,
         CartPage.CartEffect.toastError "Failed to update cart"]
      ∧ CartPage.envMutationFails.putCartItem "v1" 3
        = Except.error (backendError (some "Insufficient inventory"))
      ∧ (CartPage.removeItem
          { CartPage.envMutationFails with
            deleteCartItem := fun _ => Except.error (backendError (some "Cart is locked")) }
          "v1" CartPage.shownState).2
        = [CartPage.CartEffect.deleteCartItem "v1",
           CartPage.CartEffect.toastError "Failed to remove item"] := by
  refine ⟨?_, rfl, ?_⟩
  · simp [CartPage.updateQuantity, CartPage.envMutationFails]
  · simp [CartPage.removeItem]

/-- C22, amended: a failure of checkout creation, of order confirmation and of coupon
validation shows the backend's detail when it is present and non-empty, and the generic
message ('Checkout failed', 'Invalid coupon code') otherwise; a failure of a cart quantity
update or of a cart item removal shows the fixed message 'Failed to update cart' or
'Failed to remove item', whatever the backend reported. -/
theorem failure_messages (error : JsError) :
    (∀ env s, s.stripe = true → s.elements = true →
        env.postCheckout (checkoutBody s) = Except.error error →
        (handleSubmit env s).2.filter Effect.isUserVisible
          = [Effect.toastError (orElse error.responseDetail "Checkout failed")])
      ∧ (∀ env s data result paymentIntent, s.stripe = true → s.elements = true →
        env.postCheckout (checkoutBody s) = Except.ok data →
        env.confirmCardPayment data.client_secret (billingDetails s) = Except.ok result →
        result.error = none → result.paymentIntent = some paymentIntent →
        paymentIntent.status = "succeeded" →
        env.postOrderConfirm ("/orders/" ++ data.order_id ++ "/confirm") = Except.error error →
        (handleSubmit env s).2.filter Effect.isUserVisible
          = [Effect.toastError (orElse error.responseDetail "Checkout failed")])
      ∧ (∀ validate s, s.couponCode ≠ "" → validate s.couponCode = Except.error error →
        (applyCoupon validate s).2.filter Effect.isUserVisible
          = [Effect.toastError (orElse error.responseDetail "Invalid coupon code")])
      ∧ (∀ detail generic, detail ≠ "" → orElse (some detail) generic = detail)
      ∧ (∀ generic, orElse none generic = generic ∧ orElse (some "") generic = generic)
      ∧ (∀ env variantId quantity s,
        env.putCartItem variantId quantity = Except.error error →
        (CartPage.updateQuantity env variantId quantity s).2
          = [CartPage.CartEffect.putCartItem variantId quantity,
             CartPage.CartEffect.toastError "Failed to update cart"])
      ∧ (∀ env variantId s, env.deleteCartItem variantId = Except.error error →
        (CartPage.removeItem env variantId s).2
          = [CartPage.CartEffect.deleteCartItem variantId,
             CartPage.CartEffect.toastError "Failed to remove item"]) := by
  refine ⟨?_, ?_, ?_, ?_, ?_, ?_, ?_⟩
  · intro env s hstripe helements hrejected
    simp [handleSubmit, handleSubmitCatch, hstripe, helements, hrejected, List.filter,
      Effect.isUserVisible]
  · intro env s data result paymentIntent hstripe helements hc hp herr hpi hst hconf
    simp [handleSubmit, handleSubmitCatch, hstripe, helements, hc, hp, herr, hpi, hst, hconf,
      List.filter, Effect.isUserVisible]
  · intro validate s hcode hv
    simp [applyCoupon, hcode, hv, List.filter, Effect.isUserVisible]
  · intro detail generic hne
    simp [orElse, hne]
  · intro generic
    simp [orElse]
  · intro env variantId quantity s hput
    simp [CartPage.updateQuantity, hput]
  · intro env variantId s hdel
    simp [CartPage.removeItem, hdel]

/-- Witness of C22: a rejected coupon validation shows the backend's detail, a rejected
quantity update shows the fixed message. -/
theorem failure_messages_witness :
    (applyCoupon (fun _ => Except.error (backendError (some "Coupon expired")))
        (readyState (some (singleLineCart 200 1)) "OLD")).2.filter Effect.isUserVisible
      = [Effect.toastError "Coupon expired"]
      ∧ (CartPage.updateQuantity
          { CartPage.envMutationFails with
            putCartItem := fun _ _ => Except.error (backendError (some "Coupon expired")) }
          "v1" 3 CartPage.shownState).2
        = [CartPage.CartEffect.putCartItem "v1" 3,
           CartPage.CartEffect.toastError "Failed to update cart"] := by
  have h := failure_messages (backendError (some "Coupon expired"))
  refine ⟨?_, h.2.2.2.2.2.1 _ "v1" 3 CartPage.shownState rfl⟩
  have h3 := h.2.2.1 (fun _ => Except.error (backendError (some "Coupon expired")))
    (readyState (some (singleLineCart 200 1)) "OLD") (by decide) rfl
  rw [h3]
  have hd := h.2.2.2.1 "Coupon expired" "Invalid coupon code" (by decide)
  simp only [backendError]
  rw [hd]

/-! ## Cart page controls and removal (C23, C24) -/

namespace CartPage

/-- C23: for a cart line whose quantity is a whole number ≥ 1, every quantity the decrement
and increment buttons pass to `updateQuantity` is ≥ 1: the decrement button does nothing
while the quantity is ≤ 1, and sends quantity − 1 otherwise. -/
theorem quantity_sent_at_least_one (env : CartEnv) (item : CartItem) (s : CartState)
    (n : ℤ) (hwhole : item.quantity = n) (hone : 1 ≤ item.quantity) :
    (∀ v q, CartEffect.putCartItem v q ∈ (clickDecrease env item s).2 → 1 ≤ q)
      ∧ (∀ v q, CartEffect.putCartItem v q ∈ (clickIncrease env item s).2 → 1 ≤ q)
      ∧ (item.quantity ≤ 1 → clickDecrease env item s = (s, []))
      ∧ (1 < item.quantity →
        CartEffect.putCartItem item.variant_id (item.quantity - 1)
          ∈ (clickDecrease env item s).2) := by
  refine ⟨?_, ?_, ?_, ?_⟩
  · intro v q hmem
    unfold clickDecrease at hmem
    by_cases hdis : decreaseDisabled item = true
    · rw [if_pos hdis] at hmem
      simp at hmem
    · rw [if_neg hdis] at hmem
      rw [putCartItem_mem_updateQuantity] at hmem
      have hgt : 1 < item.quantity := by
        simp only [decreaseDisabled, decide_eq_true_eq, not_le] at hdis
        exact hdis
      rw [hwhole] at hgt
      have hn : (2 : ℤ) ≤ n := by
        have : (1 : ℤ) < n := by exact_mod_cast hgt
        omega
      have hq : (2 : ℚ) ≤ (n : ℚ) := by exact_mod_cast hn
      rw [hmem.2, hwhole]
      linarith
  · intro v q hmem
    unfold clickIncrease at hmem
    rw [putCartItem_mem_updateQuantity] at hmem
    rw [hmem.2]
    linarith
  · intro hle
    simp [clickDecrease, decreaseDisabled, hle]
  · intro hgt
    have hdis : ¬ (decreaseDisabled item = true) := by
      simp only [decreaseDisabled, decide_eq_true_eq, not_le]
      exact hgt
    unfold clickDecrease
    rw [if_neg hdis, putCartItem_mem_updateQuantity]
    exact ⟨rfl, rfl⟩

/-- Witness of C23: on a line of quantity 2 the decrement sends 1; on a line of quantity 1 it
does nothing. -/
theorem quantity_sent_at_least_one_witness :
    CartEffect.putCartItem "v1" (2 - 1)
        ∈ (clickDecrease (envAccepts (singleLineCart 30 1))
            { variant_id := "v1", price := 30, quantity := 2 } shownState).2
      ∧ clickDecrease (envAccepts (singleLineCart 30 1))
          { variant_id := "v1", price := 30, quantity := 1 } shownState
        = (shownState, []) :=
  ⟨(quantity_sent_at_least_one (envAccepts (singleLineCart 30 1))
      { variant_id := "v1", price := 30, quantity := 2 } shownState 2
      (by norm_num) (by norm_num)).2.2.2 (by norm_num),
   (quantity_sent_at_least_one (envAccepts (singleLineCart 30 1))
      { variant_id := "v1", price := 30, quantity := 1 } shownState 1
      (by norm_num) (by norm_num)).2.2.1 (by norm_num)⟩

/-- C24: against a backend whose removal of an absent variant is an acknowledged no-op,
`removeItem` of a variant that is not in the cart shows no error, and the cart held
afterwards is the stored cart, which the removal left unchanged; removing a variant twice
leaves the store as removing it once. -/
theorem removeItem_absent_noop (store : List CartItem) (variantId : String) (s : CartState)
    (habsent : ∀ item ∈ store, item.variant_id ≠ variantId) :
    (backendDelete store variantId).2 = store
      ∧ (removeItem (envOfStore store variantId) variantId s).2
        = [CartEffect.deleteCartItem variantId, CartEffect.getCart,
           CartEffect.setLoading false, CartEffect.onUpdate,
           CartEffect.toastSuccess "Item removed"]
      ∧ (∀ msg, CartEffect.toastError msg
          ∉ (removeItem (envOfStore store variantId) variantId s).2)
      ∧ (removeItem (envOfStore store variantId) variantId s).1.cart
        = some { items := some store }
      ∧ (s.cart = some { items := some store } →
        (removeItem (envOfStore store variantId) variantId s).1.cart = s.cart)
      ∧ (backendDelete (backendDelete store variantId).2 variantId).2
        = (backendDelete store variantId).2 := by
  have hstore : (backendDelete store variantId).2 = store := by
    simp only [backendDelete]
    rw [List.filter_eq_self]
    intro item hmem
    simpa using habsent item hmem
  have hrun : removeItem (envOfStore store variantId) variantId s
      = ({ cart := some { items := some store }, loading := false },
          [CartEffect.deleteCartItem variantId, CartEffect.getCart,
           CartEffect.setLoading false, CartEffect.onUpdate,
           CartEffect.toastSuccess "Item removed"]) := by
    simp [removeItem, fetchCart, envOfStore, backendGetCart, hstore]
    simp [backendDelete]
  refine ⟨hstore, by rw [hrun], ?_, by rw [hrun], ?_, ?_⟩
  · intro msg
    rw [hrun]
    simp
  · intro hheld
    rw [hrun, hheld]
  · simp [backendDelete, List.filter_filter]

/-- Witness of C24: the cart holds the variant v1 only and the variant v9 is removed. -/
theorem removeItem_absent_noop_witness :
    (removeItem
        (envOfStore [{ variant_id := "v1", price := 30, quantity := 2 }] "v9") "v9"
        shownState).1.cart = shownState.cart
      ∧ (removeItem
        (envOfStore [{ variant_id := "v1", price := 30, quantity := 2 }] "v9") "v9"
        shownState).2
        = [CartEffect.deleteCartItem "v9", CartEffect.getCart,
           CartEffect.setLoading false, CartEffect.onUpdate,
           CartEffect.toastSuccess "Item removed"] := by
  have h := removeItem_absent_noop [{ variant_id := "v1", price := 30, quantity := 2 }]
    "v9" shownState (by
      intro item hmem
      simp only [List.mem_singleton] at hmem
      subst hmem
      decide)
  exact ⟨h.2.2.2.2.1 rfl, h.2.1⟩

end CartPage

/-! ## Tax, request body and totals (C25, C26, C27, C30) -/

/-- C25, as stated, fails: for a cart of 1 × 3 without discount the tax that enters the
total is 0.30000000000000004, while (subtotal − discount) × 0.10 rounded to 2 decimal
places is 0.30, whose double is 0.3; the total is 13.3. -/
theorem tax_not_rounded :
    Binary64.tax (readyState (some (singleLineCart 3 1)) "")
        = 1351079888211149 / 4503599627370496
      ∧ roundCents ((Binary64.subtotal (readyState (some (singleLineCart 3 1)) "")
          - (readyState (some (singleLineCart 3 1)) "").discount) * 0.10) = 3 / 10
      ∧ Binary64.roundDouble (3 / 10) = 5404319552844595 / 18014398509481984
      ∧ (1351079888211149 / 4503599627370496 : ℚ) ≠ 3 / 10
      ∧ (1351079888211149 / 4503599627370496 : ℚ) ≠ 5404319552844595 / 18014398509481984
      ∧ Binary64.total (readyState (some (singleLineCart 3 1)) "")
        = 3743617190251725 / 281474976710656 := by
  have hsub : Binary64.subtotal (readyState (some (singleLineCart 3 1)) "") = 3 := by
    norm_num [Binary64.subtotal, Binary64.calculateSubtotal, readyState, singleLineCart,
      Binary64.add, Binary64.mul, Binary64.roundDouble_3]
  have hbase : Binary64.sub (Binary64.subtotal (readyState (some (singleLineCart 3 1)) ""))
      (readyState (some (singleLineCart 3 1)) "").discount = 3 := by
    rw [hsub]
    norm_num [Binary64.sub, readyState, Binary64.roundDouble_3]
  have htax : Binary64.tax (readyState (some (singleLineCart 3 1)) "")
      = 1351079888211149 / 4503599627370496 := by
    unfold Binary64.tax
    rw [hbase]
    unfold Binary64.mul
    rw [show (0.1 : ℚ) = 1 / 10 by norm_num, Binary64.roundDouble_tenth,
      show (3 * (3602879701896397 / 36028797018963968) : ℚ)
        = 10808639105689191 / 36028797018963968 by norm_num,
      Binary64.roundDouble_3_mul_tenth]
  refine ⟨htax, ?_, Binary64.roundDouble_three_tenths, ?_, ?_, ?_⟩
  · rw [hsub]
    norm_num [roundCents, round_eq, readyState]
  · norm_num
  · norm_num
  · unfold Binary64.total
    rw [hbase, htax]
    have hship : Binary64.shipping (readyState (some (singleLineCart 3 1)) "") = 10 := by
      unfold Binary64.shipping
      rw [hsub]
      norm_num
    rw [hship]
    unfold Binary64.add
    rw [show (3 + 10 : ℚ) = 13 by norm_num, Binary64.roundDouble_13,
      show (13 + 1351079888211149 / 4503599627370496 : ℚ)
        = 59897875044027597 / 4503599627370496 by norm_num,
      Binary64.roundDouble_13_add_tax]

/-- C25, amended: the tax amount that enters the checkout total is the double-precision
product of subtotal − discount and 0.1, the difference and the product each rounded to
the nearest double and nothing rounded to 2 decimal places; the total adds, from left to
right and in double precision, shipping and that tax to subtotal − discount. A cart of
1 × 120 without discount gives the tax 12 and the total 132. -/
theorem tax_enters_total_unrounded (s : CheckoutState) :
    Binary64.tax s
        = Binary64.roundDouble
            (Binary64.roundDouble (Binary64.subtotal s - s.discount)
              * Binary64.roundDouble (1 / 10))
      ∧ Binary64.total s
        = Binary64.roundDouble
            (Binary64.roundDouble
                (Binary64.roundDouble (Binary64.subtotal s - s.discount)
                  + Binary64.shipping s)
              + Binary64.tax s)
      ∧ Binary64.tax (readyState (some (singleLineCart 120 1)) "") = 12
      ∧ Binary64.total (readyState (some (singleLineCart 120 1)) "") = 132 := by
  have hsub : Binary64.subtotal (readyState (some (singleLineCart 120 1)) "") = 120 := by
    norm_num [Binary64.subtotal, Binary64.calculateSubtotal, readyState, singleLineCart,
      Binary64.add, Binary64.mul, Binary64.roundDouble_120]
  have hbase : Binary64.sub (Binary64.subtotal (readyState (some (singleLineCart 120 1)) ""))
      (readyState (some (singleLineCart 120 1)) "").discount = 120 := by
    rw [hsub]
    norm_num [Binary64.sub, readyState, Binary64.roundDouble_120]
  have htax : Binary64.tax (readyState (some (singleLineCart 120 1)) "") = 12 := by
    unfold Binary64.tax
    rw [hbase]
    unfold Binary64.mul
    rw [show (0.1 : ℚ) = 1 / 10 by norm_num, Binary64.roundDouble_tenth,
      show (120 * (3602879701896397 / 36028797018963968) : ℚ)
        = 54043195528445955 / 4503599627370496 by norm_num,
      Binary64.roundDouble_120_mul_tenth]
  refine ⟨?_, rfl, htax, ?_⟩
  · unfold Binary64.tax Binary64.mul Binary64.sub
    rw [show (0.1 : ℚ) = 1 / 10 by norm_num]
  · unfold Binary64.total
    rw [hbase, htax]
    have hship : Binary64.shipping (readyState (some (singleLineCart 120 1)) "") = 0 := by
      unfold Binary64.shipping
      rw [hsub]
      norm_num
    rw [hship]
    unfold Binary64.add
    rw [show (120 + 0 : ℚ) = 120 by norm_num, Binary64.roundDouble_120,
      show (120 + 12 : ℚ) = 132 by norm_num, Binary64.roundDouble_132]

/-- C26: every `POST /checkout` that `handleSubmit` issues carries the shipping address of
the page as `shipping_address` and as `billing_address`, and as `coupon_code` the entered
code when it is non-empty and nothing when it is empty. -/
theorem checkout_body_fields (env : CheckoutEnv) (s : CheckoutState) (body : CheckoutBody)
    (hsent : Effect.postCheckout body ∈ (handleSubmit env s).2) :
    body.shipping_address = s.shippingAddress
      ∧ body.billing_address = body.shipping_address
      ∧ (s.couponCode ≠ "" → body.coupon_code = some s.couponCode)
      ∧ (s.couponCode = "" → body.coupon_code = none) := by
  have hbody : body = checkoutBody s := ((handleSubmit_postCheckout_mem env s body).mp hsent).2.2
  rw [hbody]
  refine ⟨rfl, rfl, ?_, ?_⟩
  · intro hne
    simp [checkoutBody, hne]
  · intro hempty
    simp [checkoutBody, hempty]

/-- Witness of C26: a submission with the code 'SAVE15' entered. -/
theorem checkout_body_fields_witness :
    Effect.postCheckout (checkoutBody (readyState (some (singleLineCart 200 1)) "SAVE15"))
        ∈ (handleSubmit (envPayment "succeeded" (Except.ok ()))
            (readyState (some (singleLineCart 200 1)) "SAVE15")).2
      ∧ (checkoutBody (readyState (some (singleLineCart 200 1)) "SAVE15")).billing_address
        = (checkoutBody (readyState (some (singleLineCart 200 1)) "SAVE15")).shipping_address
      ∧ (checkoutBody (readyState (some (singleLineCart 200 1)) "SAVE15")).coupon_code
        = some "SAVE15" := by
  have hsent : Effect.postCheckout
      (checkoutBody (readyState (some (singleLineCart 200 1)) "SAVE15"))
      ∈ (handleSubmit (envPayment "succeeded" (Except.ok ()))
          (readyState (some (singleLineCart 200 1)) "SAVE15")).2 := by
    decide
  have h := checkout_body_fields (envPayment "succeeded" (Except.ok ()))
    (readyState (some (singleLineCart 200 1)) "SAVE15") _ hsent
  exact ⟨hsent, h.2.1, h.2.2.1 (by decide)⟩

/-- C27: for a cart page and a checkout page holding the same cart, the checkout page with
discount 0, the total of the cart page (subtotal + shipping + subtotal × 0.10) is the
checkout total, and the two pages agree on subtotal, shipping and tax. -/
theorem cart_total_eq_checkout_total (c : CartPage.CartState) (s : CheckoutState)
    (hcart : c.cart = s.cart) (hdiscount : s.discount = 0) :
    CartPage.totalShown c = total s
      ∧ CartPage.totalShown c
        = CartPage.subtotalShown c + CartPage.shippingShown c + CartPage.subtotalShown c * 0.10
      ∧ CartPage.subtotalShown c = subtotal s
      ∧ CartPage.shippingShown c = shipping s
      ∧ CartPage.taxShown c = tax s := by
  have hsub : CartPage.subtotalShown c = subtotal s := by
    simp [CartPage.subtotalShown, subtotal, hcart]
  have hship : CartPage.shippingShown c = shipping s := by
    simp [CartPage.shippingShown, shipping, hsub]
  have htax : CartPage.taxShown c = tax s := by
    simp [CartPage.taxShown, tax, hsub, hdiscount]
  refine ⟨?_, ?_, hsub, hship, htax⟩
  · unfold CartPage.totalShown total tax shipping
    rw [hsub, hdiscount]
    ring
  · unfold CartPage.totalShown CartPage.shippingShown
    norm_num

/-- Witness of C27: a cart of 2 × 30 shows the total 76 on both pages. -/
theorem cart_total_eq_checkout_total_witness :
    CartPage.totalShown CartPage.shownState
        = total (readyState (some (singleLineCart 30 2)) "")
      ∧ total (readyState (some (singleLineCart 30 2)) "") = 76 := by
  have h := cart_total_eq_checkout_total CartPage.shownState
    (readyState (some (singleLineCart 30 2)) "") rfl rfl
  refine ⟨h.1, ?_⟩
  norm_num [total, tax, shipping, subtotal, calculateSubtotal, readyState, singleLineCart]

/-- C30: for a cart with non-negative prices and quantities and a validated percentage coupon
with 0 ≤ value ≤ 100 and no max_discount or a non-negative one, the state after
`applyCoupon` satisfies 0 ≤ discount ≤ subtotal, tax ≥ 0 and total ≥ shipping ≥ 0. -/
theorem applyCoupon_percentage_bounds (validate : String → Except JsError CouponData)
    (s : CheckoutState) (data : CouponData)
    (hnonneg : Cart.NonNeg s.cart)
    (hcode : s.couponCode ≠ "") (hv : validate s.couponCode = Except.ok data)
    (htype : data.type = "percentage")
    (hlow : 0 ≤ data.value) (hhigh : data.value ≤ 100)
    (hcap : ∀ cap, data.max_discount = some cap → 0 ≤ cap) :
    0 ≤ (applyCoupon validate s).1.discount
      ∧ (applyCoupon validate s).1.discount ≤ subtotal (applyCoupon validate s).1
      ∧ 0 ≤ tax (applyCoupon validate s).1
      ∧ shipping (applyCoupon validate s).1 ≤ total (applyCoupon validate s).1
      ∧ 0 ≤ shipping (applyCoupon validate s).1 := by
  have h0 : 0 ≤ subtotal s := calculateSubtotal_nonneg s.cart hnonneg
  have hsub : subtotal (applyCoupon validate s).1 = subtotal s := by
    rw [applyCoupon_frame]
    rfl
  have hpct0 : 0 ≤ subtotal s * (data.value / 100) :=
    mul_nonneg h0 (div_nonneg hlow (by norm_num))
  have hpct1 : subtotal s * (data.value / 100) ≤ subtotal s :=
    (percent_le_self_iff _ _ h0).mpr (Or.inr hhigh)
  have hd : 0 ≤ (applyCoupon validate s).1.discount
      ∧ (applyCoupon validate s).1.discount ≤ subtotal s := by
    rw [applyCoupon_discount_of_ok validate s data hcode hv]
    simp only [htype, if_true]
    cases hm : data.max_discount with
    | none => exact ⟨hpct0, hpct1⟩
    | some cap =>
      by_cases hz : cap = 0
      · simp only [hz, ne_eq, not_true_eq_false, if_false]
        exact ⟨hpct0, hpct1⟩
      · simp only [hz, ne_eq, not_false_eq_true, if_true]
        exact ⟨le_min hpct0 (hcap cap hm), le_trans (min_le_left _ _) hpct1⟩
  have hship : 0 ≤ shipping (applyCoupon validate s).1 := by
    unfold shipping
    split <;> norm_num
  have htax : 0 ≤ tax (applyCoupon validate s).1 := by
    unfold tax
    rw [hsub]
    have : 0 ≤ subtotal s - (applyCoupon validate s).1.discount := sub_nonneg.mpr hd.2
    exact mul_nonneg this (by norm_num)
  refine ⟨hd.1, by rw [hsub]; exact hd.2, htax, ?_, hship⟩
  have hbase : 0 ≤ subtotal (applyCoupon validate s).1 - (applyCoupon validate s).1.discount := by
    rw [hsub]
    exact sub_nonneg.mpr hd.2
  unfold total
  linarith

/-- Witness of C30: a 15% coupon capped at 20 on a cart of 1 × 200: the discount 20 lies
between 0 and the subtotal. -/
theorem applyCoupon_percentage_bounds_witness :
    0 ≤ (applyCoupon (validateAs { type := "percentage", value := 15, max_discount := some 20 })
        (readyState (some (singleLineCart 200 1)) "SAVE15")).1.discount
      ∧ (applyCoupon (validateAs { type := "percentage", value := 15, max_discount := some 20 })
        (readyState (some (singleLineCart 200 1)) "SAVE15")).1.discount
        ≤ subtotal
          (applyCoupon (validateAs { type := "percentage", value := 15, max_discount := some 20 })
            (readyState (some (singleLineCart 200 1)) "SAVE15")).1 := by
  have hnonneg : Cart.NonNeg (readyState (some (singleLineCart 200 1)) "SAVE15").cart := by
    intro c hc items hi item hmem
    simp only [readyState, singleLineCart, Option.some.injEq] at hc
    subst hc
    simp only [Option.some.injEq] at hi
    subst hi
    simp only [List.mem_singleton] at hmem
    subst hmem
    norm_num
  have h := applyCoupon_percentage_bounds
    (validateAs { type := "percentage", value := 15, max_discount := some 20 })
    (readyState (some (singleLineCart 200 1)) "SAVE15")
    { type := "percentage", value := 15, max_discount := some 20 }
    hnonneg (by decide) rfl rfl (by norm_num) (by norm_num)
    (by
      intro cap hcap
      simp only [Option.some.injEq] at hcap
      rw [← hcap]
      norm_num)
  exact ⟨h.1, h.2.1⟩

/-! ## Coupon code sent with the order (C28) -/

/-- C28, as stated, fails: a code typed into the coupon field and never applied, and a code
whose validation failed, are both sent as `coupon_code` by the next submission, while the
held discount is 0. -/
theorem typed_code_sent_unvalidated :
    Effect.postCheckout (checkoutBody (readyState none "FAKE"))
        ∈ (pageStep
            (run [PageEvent.hooks true true, PageEvent.setShippingAddress sampleAddress,
                  PageEvent.setCouponCode "FAKE"]) PageEvent.placeOrder).2
      ∧ (checkoutBody (readyState none "FAKE")).coupon_code = some "FAKE"
      ∧ (run [PageEvent.hooks true true, PageEvent.setShippingAddress sampleAddress,
              PageEvent.setCouponCode "FAKE"]).state.discount = 0
      ∧ Effect.postCheckout (checkoutBody (readyState none "BAD"))
        ∈ (pageStep
            (run [PageEvent.hooks true true, PageEvent.setShippingAddress sampleAddress,
                  PageEvent.setCouponCode "BAD", PageEvent.applyCouponClicked,
                  PageEvent.couponSettled 0
                    (Except.error (backendError (some "Invalid coupon")))])
            PageEvent.placeOrder).2
      ∧ (checkoutBody (readyState none "BAD")).coupon_code = some "BAD"
      ∧ (run [PageEvent.hooks true true, PageEvent.setShippingAddress sampleAddress,
              PageEvent.setCouponCode "BAD", PageEvent.applyCouponClicked,
              PageEvent.couponSettled 0
                (Except.error (backendError (some "Invalid coupon")))]).state.discount
        = 0 := by
  refine ⟨?_, ?_, ?_, ?_, ?_, ?_⟩
  · decide
  · decide
  · rfl
  · decide
  · decide
  · have hbad : ¬ ("BAD" = "") := by decide
    simp [run, runFrom, pageStep, applyCouponStart, settleCoupon, applyCoupon, initialPage,
      initialState, hbad]

/-- C28, amended: a submission, which the form lets through once the required address fields
are filled in, sends as `coupon_code` the text that is in the coupon field at that moment
whenever it is non-empty, whether or not `applyCoupon` has validated it; typing a code
changes neither the held discount nor the displayed total, which stay the ones left by the
most recent `applyCoupon`. -/
theorem placeOrder_sends_typed_code (p : Page) (code : String)
    (hcode : code ≠ "")
    (hstripe : p.state.stripe = true) (helements : p.state.elements = true)
    (hidle : p.state.loading = false)
    (hfilled : requiredFieldsFilled p.state.shippingAddress = true) :
    (pageStep (pageStep p (PageEvent.setCouponCode code)).1 PageEvent.placeOrder).2
        = [Effect.preventDefault, Effect.setLoading true,
           Effect.postCheckout
             { shipping_address := p.state.shippingAddress
               billing_address := p.state.shippingAddress
               coupon_code := some code }]
      ∧ (pageStep p (PageEvent.setCouponCode code)).1.state.discount = p.state.discount
      ∧ total (pageStep p (PageEvent.setCouponCode code)).1.state = total p.state := by
  refine ⟨?_, rfl, rfl⟩
  simp [pageStep, placeOrderDisabled, submitStart, checkoutBody, hstripe, helements, hidle,
    hcode, hfilled]

/-- Witness of C28: on a ready page holding a cart of 1 × 200 and no discount, the code
'FAKE' is typed and the form submitted. -/
theorem placeOrder_sends_typed_code_witness :
    (pageStep
        (pageStep { state := readyState (some (singleLineCart 200 1)) "", inflight := [] }
          (PageEvent.setCouponCode "FAKE")).1 PageEvent.placeOrder).2
      = [Effect.preventDefault, Effect.setLoading true,
         Effect.postCheckout
           { shipping_address := sampleAddress
             billing_address := sampleAddress
             coupon_code := some "FAKE" }] :=
  (placeOrder_sends_typed_code
    { state := readyState (some (singleLineCart 200 1)) "", inflight := [] } "FAKE"
    (by decide) rfl rfl rfl (by decide)).1

/-! ## Product detail page (C29) -/

namespace ProductDetailPage

/-- C29: on the page of a product whose first variant has 5 pieces in stock and whose second
has 2, four increments followed by the selection of the second variant leave the quantity
at 5 with the variant of stock 2 selected, and `handleAddToCart` then requests 5 pieces of
it; while the same variant stays selected the increment stops at its stock. -/
theorem quantity_exceeds_stock_after_variant_change :
    (detailRun loadedState
        [DetailEvent.increase, DetailEvent.increase, DetailEvent.increase,
         DetailEvent.increase, DetailEvent.selectVariant variantSmall]).quantity = 5
      ∧ (detailRun loadedState
        [DetailEvent.increase, DetailEvent.increase, DetailEvent.increase,
         DetailEvent.increase, DetailEvent.selectVariant variantSmall]).selectedVariant
        = some variantSmall
      ∧ variantSmall.inventory_quantity = 2
      ∧ handleAddToCart (fun _ _ => Except.ok ())
          (detailRun loadedState
            [DetailEvent.increase, DetailEvent.increase, DetailEvent.increase,
             DetailEvent.increase, DetailEvent.selectVariant variantSmall])
        = [DetailEffect.postCartItem "sku-S" 5, DetailEffect.toastSuccess "Added to cart!",
           DetailEffect.onCartUpdate]
      ∧ (detailRun loadedState
        [DetailEvent.increase, DetailEvent.increase, DetailEvent.increase,
         DetailEvent.increase, DetailEvent.increase, DetailEvent.increase]).quantity = 5 := by
  refine ⟨?_, ?_, ?_, ?_, ?_⟩
  · norm_num [detailRun, detailStep, loadedState, variantLarge, variantSmall]
  · simp [detailRun, detailStep, loadedState, variantLarge, variantSmall]
  · rfl
  · norm_num [handleAddToCart, detailRun, detailStep, loadedState, variantLarge, variantSmall]
  · norm_num [detailRun, detailStep, loadedState, variantLarge, variantSmall]

end ProductDetailPage

end Checkout
